import Mathlib

/-!
# Website-Monitoring: shallow embedding and verification

This file embeds the crawl-and-verification core of the Website-Monitoring
repository (the link / image / video checkers in `monitors/`, the shared
`BaseMonitor`, and the orchestrator in `main.py`) as executable Lean
definitions, and proves or refutes the frozen specification claims about it.

Conventions of the embedding:
* Python strings are Lean `String`s; helpers such as `startswith`, `rstrip`
  and `split('#')[0]` are modelled character-exactly on `String.data`.
* A network is a pure function from URL to a typed fetch outcome
  (`FetchOutcome`); `requests.get` / `session.head` raising an exception is
  the corresponding error constructor.  HTML parsing (BeautifulSoup) is
  abstracted: a fetched body carries the already-parsed element lists that
  the extractors walk (anchor tags, img tags, iframes, video tags, style
  URLs), and the extractors themselves are modelled faithfully on those.
* Times are exact rationals (milliseconds); Python's `round(x, 0)` is the
  banker's rounding `pyRound0`.
* The cooperative cancellation event is a signal `Nat → Bool` sampled once
  per `is_cancelled()` call, in program order.
* Every run is instrumented with verification logs (one entry per resource
  GET / HEAD issued), so that "verified at most once" claims are statements
  about the logs.
-/

namespace WebMon

/-- Emptiness of a list is decidable without decidable equality on the
elements (used for the Python truthiness tests on bucket lists). -/
instance (l : List α) : Decidable (l = []) :=
  match l with
  | [] => isTrue rfl
  | _ :: _ => isFalse (by simp)

instance (l : List α) : Decidable ([] = l) :=
  match l with
  | [] => isTrue rfl
  | _ :: _ => isFalse (by simp)

/-! ## Python string primitives -/

/-- Python `s.startswith(pre)`. -/
def pyStartsWith (s pre : String) : Bool :=
  pre.data.isPrefixOf s.data

/-- Python `s.startswith((p1, ..., pn))`: true if any prefix matches. -/
def pyStartsWithAny (s : String) (pres : List String) : Bool :=
  pres.any (fun p => pyStartsWith s p)

/-- Python `s.rstrip('/')` (drop every trailing `'/'`). -/
def pyRstripSlash (s : String) : String :=
  String.mk ((s.data.reverse.dropWhile (fun c => c = '/')).reverse)

/-- Python `set.add`: append only when absent (the checked sets are Python
sets; membership, not multiplicity, is what they record). -/
def setAdd (s : List String) (x : String) : List String :=
  if x ∈ s then s else s ++ [x]

/-- Python `s.split('#')[0]`: everything before the first `'#'`. -/
def splitFragment (s : String) : String :=
  String.mk (s.data.takeWhile (fun c => c ≠ '#'))

/-- Python `s[:n]`. -/
def pyTake (s : String) (n : Nat) : String :=
  String.mk (s.data.take n)

/-- Python `sub in s` (substring containment). -/
def pyContains (s sub : String) : Bool :=
  (s.data.tails.any (fun t => sub.data.isPrefixOf t))

/-- Python `s.lower()` (character-wise, as for the ASCII strings the
checkers compare). -/
def pyLower (s : String) : String :=
  String.mk (s.data.map Char.toLower)

/-- Python `s.strip()` (leading and trailing whitespace removed). -/
def pyStrip (s : String) : String :=
  String.mk (((s.data.dropWhile Char.isWhitespace).reverse.dropWhile
    Char.isWhitespace).reverse)

/-- Python `round(q)` on exact rationals: round half to even, to an integer. -/
def pyRoundInt (q : ℚ) : ℤ :=
  let f : ℤ := q.floor
  let r : ℚ := q - f
  if r < 1/2 then f
  else if 1/2 < r then f + 1
  else if f % 2 = 0 then f else f + 1

/-- Python `round(q, 0)` (used for reported millisecond values). -/
def pyRound0 (q : ℚ) : ℚ := (pyRoundInt q : ℚ)

/-! ## URL helpers (`urllib.parse` fragments used by the checkers) -/

/-- Split a URL into its `scheme://` prefix and the remainder, for the
`http` / `https` schemes that the repository traffics in. -/
def schemeSplit (u : String) : Option (String × String) :=
  if pyStartsWith u "https://" then some ("https://", String.mk (u.data.drop 8))
  else if pyStartsWith u "http://" then some ("http://", String.mk (u.data.drop 7))
  else none

/-- `urlparse(u).netloc` for the URL shapes used here: the host part of an
absolute `http(s)` URL, and `""` for scheme-less (relative) strings. -/
def netloc (u : String) : String :=
  match schemeSplit u with
  | some (_, rest) => String.mk (rest.data.takeWhile (fun c => c ≠ '/'))
  | none => ""

/-- `scheme://host` of an absolute URL (empty for scheme-less strings). -/
def urlOrigin (u : String) : String :=
  match schemeSplit u with
  | some (sch, rest) => sch ++ String.mk (rest.data.takeWhile (fun c => c ≠ '/'))
  | none => ""

/-- The URL up to and including the final `'/'` of its path (the directory
relative references resolve against). -/
def urlDir (u : String) : String :=
  match schemeSplit u with
  | some (sch, rest) =>
      let host := rest.data.takeWhile (fun c => c ≠ '/')
      let path := rest.data.drop host.length
      let dir := (path.reverse.dropWhile (fun c => c ≠ '/')).reverse
      sch ++ String.mk host ++ (if dir = [] then "/" else String.mk dir)
  | none => u

/-- Model of `urllib.parse.urljoin(base, href)` for the reference shapes the
checkers encounter: absolute `http(s)` URLs are returned unchanged,
scheme-relative (`//…`), root-relative (`/…`) and plain relative references
are resolved against the page URL.  (Dot-segment normalisation, which no
claim depends on, is not modelled.) -/
def urljoin (base href : String) : String :=
  if pyStartsWith href "http://" || pyStartsWith href "https://" then href
  else if href = "" then base
  else if pyStartsWith href "//" then
    (match schemeSplit base with
     | some (sch, _) => String.mk (sch.data.takeWhile (fun c => c ≠ '/')) ++ href
     | none => href)
  else if pyStartsWith href "/" then urlOrigin base ++ href
  else urlDir base ++ href

/-! ## The result model (`MonitorResult` and detail payloads) -/

/-- A value inside a `details` dictionary (the open key-value payload that
`add_result` attaches to a finding). -/
inductive DVal where
  | s (v : String)
  | n (v : ℚ)
  | b (v : Bool)
  | arr (v : List DVal)
  | obj (v : List (String × DVal))
  | null
  deriving Repr, BEq

/-- `monitors/base_monitor.py` `MonitorResult`: the atomic unit of checker
output.  `timestamp` / `screenshot_path` carry no claim content and are
omitted. -/
structure MonitorResult where
  monitorType : String
  status : String
  message : String
  severity : String
  url : Option String
  responseTime : Option ℚ
  details : List (String × DVal)
  deriving Repr, BEq

/-- `BaseMonitor.add_result` with the same defaults as the Python keyword
arguments (`severity='info'`, `url=None`, `response_time=None`,
`details=None`). -/
def mkResult (monitorType status message : String)
    (severity : String := "info") (url : Option String := none)
    (responseTime : Option ℚ := none)
    (details : List (String × DVal) := []) : MonitorResult :=
  ⟨monitorType, status, message, severity, url, responseTime, details⟩

/-- Look a key up in a `details` payload (Python `d.get(k)`). -/
def dGet (d : List (String × DVal)) (k : String) : Option DVal :=
  (d.find? (fun kv => kv.1 = k)).map (fun kv => kv.2)

/-! ## `BaseMonitor.get_full_url` -/

/-- `BaseMonitor.__init__`: the stored base URL, `base_url.rstrip('/')`. -/
def baseMonitorBaseUrl (baseUrl : String) : String :=
  pyRstripSlash baseUrl

/-- `BaseMonitor.get_full_url`: absolute paths (anything starting with
`"http"`) pass through; otherwise the stored base URL is prefixed, adding a
leading `'/'` to the path exactly when it lacks one. -/
def getFullUrl (storedBase path : String) : String :=
  if pyStartsWith path "http" then path
  else storedBase ++ (if pyStartsWith path "/" then path else "/" ++ path)

/-! ## Orchestrator (`main.py`): statistics, report, checker sequencing -/

/-- The severity tallies `issues = {'critical': …, 'high': …, 'medium': …,
'low': …}` of `WordPressMonitor._calculate_stats`. -/
structure IssueCounts where
  critical : Nat
  high : Nat
  medium : Nat
  low : Nat
  deriving Repr, BEq, DecidableEq

/-- One step of the severity-count loop: a finding whose status is not
`'success'` bumps its severity bucket, and only the four bucketed
severities are counted (`if severity in issues`). -/
def tallyStep (acc : IssueCounts) (r : MonitorResult) : IssueCounts :=
  if r.status ≠ "success" then
    if r.severity = "critical" then { acc with critical := acc.critical + 1 }
    else if r.severity = "high" then { acc with high := acc.high + 1 }
    else if r.severity = "medium" then { acc with medium := acc.medium + 1 }
    else if r.severity = "low" then { acc with low := acc.low + 1 }
    else acc
  else acc

/-- The severity-count loop of `_calculate_stats`. -/
def statsIssueCounts (rs : List MonitorResult) : IssueCounts :=
  rs.foldl tallyStep ⟨0, 0, 0, 0⟩

/-- The `response_times` list of `_calculate_stats`: the loop appends
`result.response_time` only when `if rt:` holds, i.e. when the value is
present *and* truthy (nonzero). -/
def statsResponseTimes (rs : List MonitorResult) : List ℚ :=
  rs.foldl (fun acc r =>
    match r.responseTime with
    | some v => if v ≠ 0 then acc ++ [v] else acc
    | none => acc) []

/-- Python `round(q, 2)` (half to even at two decimals). -/
def pyRound2 (q : ℚ) : ℚ := (pyRoundInt (q * 100) : ℚ) / 100

/-- The run-statistics object of `_calculate_stats` (fields derived from the
database or the configuration are external and omitted). -/
structure Stats where
  totalChecks : Nat
  totalIssues : Nat
  criticalIssues : Nat
  highIssues : Nat
  mediumIssues : Nat
  lowIssues : Nat
  avgResponseTime : ℚ
  deriving Repr, BEq

/-- `WordPressMonitor._calculate_stats`. -/
def calculateStats (rs : List MonitorResult) : Stats :=
  let issues := statsIssueCounts rs
  let ts := statsResponseTimes rs
  let avg : ℚ := if ts ≠ [] then ts.sum / ts.length else 0
  { totalChecks := rs.length
    totalIssues := issues.critical + issues.high + issues.medium + issues.low
    criticalIssues := issues.critical
    highIssues := issues.high
    mediumIssues := issues.medium
    lowIssues := issues.low
    avgResponseTime := pyRound2 avg }

/-- One entry of the report's `issues` list in
`WordPressMonitor._generate_report`. -/
structure Issue where
  severity : String
  message : String
  monitor : String
  url : String
  details : List (String × DVal)
  deriving Repr, BEq

/-- The duck-typed field extraction of `_generate_report`: a falsy attribute
value (empty string, `None` url, `None` details) falls back to the
dictionary branch, which for a `MonitorResult` object yields the listed
defaults. -/
def issueOf (r : MonitorResult) : Issue :=
  { severity := if r.severity = "" then "low" else r.severity
    message := r.message
    monitor := r.monitorType
    url := (r.url.getD "")
    details := r.details }

/-- The sort key `{'critical': 0, 'high': 1, 'medium': 2, 'low': 3}.get(sev, 4)`
of `_generate_report`. -/
def severityRank (s : String) : Nat :=
  if s = "critical" then 0
  else if s = "high" then 1
  else if s = "medium" then 2
  else if s = "low" then 3
  else 4

/-- Stable insertion into an already sorted issue list (kept before the
first strictly larger key, after equal keys — the order Python's stable
`sorted` produces). -/
def insertIssue (x : Issue) : List Issue → List Issue
  | [] => [x]
  | y :: ys =>
      if severityRank x.severity < severityRank y.severity then x :: y :: ys
      else y :: insertIssue x ys

/-- Python `sorted(issues, key=severity rank)` (stable). -/
def sortIssues : List Issue → List Issue
  | [] => []
  | x :: xs => insertIssue x (sortIssues xs)

/-- `WordPressMonitor._generate_report`: the `issues` list handed to the
report generator — every non-success finding, sorted by severity rank. -/
def generateReportIssues (rs : List MonitorResult) : List Issue :=
  sortIssues ((rs.filter (fun r => r.status != "success")).map issueOf)

/-- An abstract checker as the orchestrator sees it: a name and a `run()`
that either returns findings or raises. -/
structure CheckerRun where
  name : String
  run : Except String (List MonitorResult)

/-- The error entry `run_all_checks` appends when a checker's `run()`
raises (`{'monitor_type': …, 'status': 'error', 'message': 'Monitor failed: …',
'severity': 'high'}`). -/
def monitorFailedResult (name msg : String) : MonitorResult :=
  mkResult name "error" ("Monitor failed: " ++ msg) "high"

/-- The monitor loop of `WordPressMonitor.run_all_checks` (lines 150-175):
before each monitor the cancellation event is sampled (one sample per
monitor, the tail of the signal passed on); a raising monitor contributes
exactly one error finding and the loop continues. -/
def runAllChecks (cancel : Nat → Bool) : List CheckerRun → List MonitorResult
  | [] => []
  | c :: cs =>
      if cancel 0 then []
      else
        match c.run with
        | .ok results => results ++ runAllChecks (fun t => cancel (t + 1)) cs
        | .error e => monitorFailedResult c.name e :: runAllChecks (fun t => cancel (t + 1)) cs

/-- The never-cancelled signal. -/
def noCancel : Nat → Bool := fun _ => false

/-! ## Pages, bodies and the fetch capability

BeautifulSoup parsing is abstracted: a fetched page body carries the parsed
element lists that the extractors iterate over (`find_all('a')`,
`find_all('img')`, elements with a `style` attribute, `find_all('iframe')`,
`find_all('video')`), in document order.  The extractors themselves
(`_extract_links`, `_extract_images`, `_extract_videos`) are modelled
faithfully on these lists. -/

/-- An anchor tag: `href` attribute (possibly absent), stripped text
(`get_text(strip=True)`), and class list. -/
structure Anchor where
  href : Option String
  text : String
  classes : List String

/-- An `<img>` tag with the attributes `_extract_images` reads. -/
structure ImgTag where
  src : Option String
  dataSrc : Option String
  dataLazySrc : Option String
  alt : Option String

/-- An element carrying a `style` attribute; `urls` is the output of the
`url(...)` regex (`re.findall`) on that style string, which is external
library behaviour and therefore given, in order. -/
structure StyledElem where
  style : String
  urls : List String

/-- An `<iframe>` with `src` / `data-src`. -/
structure IframeTag where
  src : Option String
  dataSrc : Option String

/-- A `<video>` tag: its own `src` and the `src` of its `<source>` children. -/
structure VideoTag where
  src : Option String
  sourceSrcs : List (Option String)

/-- The parsed contents of one HTML document. -/
structure Body where
  anchors : List Anchor
  imgs : List ImgTag
  styled : List StyledElem
  iframes : List IframeTag
  videoTags : List VideoTag

/-- A body together with its content-scope variants: `main` is the
`<main>/<article>/.content/.main-content/#content/#main` subtree when one
exists, `stripped` is the header/footer-removed copy, and
`strippedRemovedAny` records whether that removal actually removed
anything (the link checker's `if removed:` test). -/
structure PageContent where
  full : Body
  main : Option Body
  stripped : Body
  strippedRemovedAny : Bool

/-- The empty body. -/
def Body.empty : Body := ⟨[], [], [], [], []⟩

/-- A page whose every scope variant is `b`. -/
def PageContent.ofBody (b : Body) : PageContent := ⟨b, none, b, false⟩

/-- `LinkChecker._get_content_scope`: main-content-only wins when a main
region exists; otherwise the header/footer-stripped copy is used only when
something was actually removed. -/
def linkContentScope (mainContentOnly ignoreHeader ignoreFooter : Bool)
    (pc : PageContent) : Body :=
  if mainContentOnly ∧ pc.main.isSome then pc.main.getD pc.full
  else if (ignoreHeader ∨ ignoreFooter) ∧ pc.strippedRemovedAny then pc.stripped
  else pc.full

/-- `ImageChecker._get_content_scope`: as for links, except the stripped
copy is returned whenever a strip flag is set. -/
def imageContentScope (mainContentOnly ignoreHeader ignoreFooter : Bool)
    (pc : PageContent) : Body :=
  if mainContentOnly ∧ pc.main.isSome then pc.main.getD pc.full
  else if ignoreHeader ∨ ignoreFooter then pc.stripped
  else pc.full

/-- The outcome of one `requests` call (`GET` or `HEAD`): an HTTP response
(any status), or one of the typed exceptions the checkers catch.  `msg` is
the Python `str(e)` of the raised exception. -/
inductive FetchOutcome where
  | resp (status : Nat) (elapsedMs : ℚ) (contentType : String)
      (content : PageContent) (redirects : Nat)
  | timeout (msg : String)
  | sslError (msg : String)
  | connError (msg : String)
  | exn (msg : String)

/-- Whether the outcome is an HTTP response (no exception raised). -/
def FetchOutcome.isResp : FetchOutcome → Bool
  | .resp _ _ _ _ _ => true
  | _ => false

/-- The network: deterministic `GET` and `HEAD` oracles. -/
structure Net where
  get : String → FetchOutcome
  head : String → FetchOutcome

/-- The configuration slice the three checkers read (defaults as in the
Python constructors).  `shouldIgnore` models the compiled
`ignore_patterns` regex list of the link checker. -/
structure Config where
  baseUrl : String
  criticalPages : List String := ["/"]
  maxLinksPerPage : Nat := 0
  maxImagesPerPage : Nat := 0
  checkAltTags : Bool := true
  slowThresholdMs : ℚ := 3000
  imageTimeoutS : ℚ := 15
  videoTimeoutS : ℚ := 15
  maxDepth : Nat := 3
  maxLinks : Nat := 500
  checkExternal : Bool := true
  ignoreHeader : Bool := false
  ignoreFooter : Bool := false
  mainContentOnly : Bool := false
  shouldIgnore : String → Bool := fun _ => false

/-- The `self.base_url` every monitor stores (`BaseMonitor.__init__`). -/
def Config.stored (cfg : Config) : String := pyRstripSlash cfg.baseUrl

/-- `self.get_full_url(page)` for a configured page. -/
def Config.pageUrl (cfg : Config) (page : String) : String :=
  getFullUrl cfg.stored page

/-- A details dictionary. -/
abbrev Dct := List (String × DVal)

/-! ## Image checker (`monitors/image_checker.py`) -/

/-- Python `a or b` on optional strings (an empty string is falsy). -/
def pyOrStr (a b : Option String) : Option String :=
  match a with
  | some s => if s ≠ "" then some s else b
  | none => b

/-- `img.get('src') or img.get('data-src') or img.get('data-lazy-src')`,
with `''` for a fully absent chain. -/
def imgSrcOf (img : ImgTag) : String :=
  (pyOrStr img.src (pyOrStr img.dataSrc img.dataLazySrc)).getD ""

/-- `alt_text.strip() if alt_text else ''` on `img.get('alt', '')`. -/
def imgAltOf (img : ImgTag) : String :=
  let alt := img.alt.getD ""
  if alt ≠ "" then pyStrip alt else ""

/-- The `<img>`-tag loop of `ImageChecker._extract_images`: resolve, skip
`data:` URIs and duplicates, record `(absolute url, alt)`. -/
def extractImgTags (baseUrl : String) :
    List ImgTag → List String → List (String × String) × List String
  | [], seen => ([], seen)
  | img :: rest, seen =>
      let src := imgSrcOf img
      if src ≠ "" then
        if pyStartsWith src "data:" then extractImgTags baseUrl rest seen
        else
          let fullUrl := urljoin baseUrl src
          if fullUrl ∈ seen then extractImgTags baseUrl rest seen
          else
            let (out, seen2) := extractImgTags baseUrl rest (seen ++ [fullUrl])
            ((fullUrl, imgAltOf img) :: out, seen2)
      else extractImgTags baseUrl rest seen

/-- The background-image loop of `_extract_images`: elements whose style
mentions `background-image` or `background:` contribute their `url(...)`
matches, deduplicated against everything seen so far (alt is `''`). -/
def extractBgUrls (baseUrl : String) :
    List String → List String → List (String × String) × List String
  | [], seen => ([], seen)
  | u :: rest, seen =>
      if pyStartsWith u "data:" then extractBgUrls baseUrl rest seen
      else
        let fullUrl := urljoin baseUrl u
        if fullUrl ∈ seen then extractBgUrls baseUrl rest seen
        else
          let (out, seen2) := extractBgUrls baseUrl rest (seen ++ [fullUrl])
          ((fullUrl, "") :: out, seen2)

/-- One styled element's contribution (guarded by the `background` test). -/
def bgUrlsOf (e : StyledElem) : List String :=
  if pyContains e.style "background-image" || pyContains e.style "background:" then e.urls
  else []

/-- `ImageChecker._extract_images`. -/
def extractImages (b : Body) (baseUrl : String) : List (String × String) :=
  let (tagImgs, seen) := extractImgTags baseUrl b.imgs []
  let (bgImgs, _) := extractBgUrls baseUrl (b.styled.flatMap bgUrlsOf) seen
  tagImgs ++ bgImgs

/-- A list of dictionaries as a detail value. -/
def dObjList (ds : List Dct) : DVal := .arr (ds.map .obj)

/-- `alt_text or 'N/A'`. -/
def altOrNA (alt : String) : String := if alt = "" then "N/A" else alt

/-- The run-wide state of `ImageChecker`, instrumented with verification
logs: `verifyLog` records every image `GET` issued, `pageLog` every page
`GET`, `tick` counts `is_cancelled()` samples. -/
structure ImageState where
  checkedImages : List String
  brokenImages : List Dct
  slowImages : List Dct
  missingAltImages : List Dct
  allImages : List Dct
  results : List MonitorResult
  verifyLog : List String
  pageLog : List String
  tick : Nat

/-- The fresh state `ImageChecker.run` resets to. -/
def ImageState.init : ImageState := ⟨[], [], [], [], [], [], [], [], 0⟩

/-- The page-local buckets of `_check_images_per_page`. -/
structure ImgPageAcc where
  pageBroken : List Dct
  pageSlow : List Dct
  pageMissingAlt : List Dct
  pageImages : List Dct
  totalTime : ℚ

/-- The image-verification loop body over the extracted `(url, alt)` list:
cancellation is sampled before each image; already-checked URLs are
skipped; otherwise the URL is marked checked *before* fetching, missing
alt is recorded, and the fetch outcome is classified exactly as in
`_check_images_per_page` lines 201-342. -/
def imageInner (cfg : Config) (net : Net) (c : Nat → Bool) (page url : String) :
    List (String × String) → ImgPageAcc → ImageState → ImgPageAcc × ImageState
  | [], acc, st => (acc, st)
  | (imgUrl, alt) :: rest, acc, st =>
      let cancelled := c st.tick
      let st := { st with tick := st.tick + 1 }
      if cancelled then (acc, st)
      else if imgUrl ∈ st.checkedImages then imageInner cfg net c page url rest acc st
      else
        let st := { st with checkedImages := st.checkedImages ++ [imgUrl] }
        let (acc, st) :=
          if cfg.checkAltTags ∧ alt = "" then
            let d : Dct := [("image_url", .s imgUrl), ("alt_text", .s ""),
              ("issue", .s "Missing alt attribute"), ("found_on_page", .s page),
              ("page_url", .s url)]
            ({ acc with pageMissingAlt := acc.pageMissingAlt ++ [d] },
             { st with missingAltImages := st.missingAltImages ++ [d] })
          else (acc, st)
        let st := { st with verifyLog := st.verifyLog ++ [imgUrl] }
        match net.get imgUrl with
        | .resp status t contentType _ _ =>
            let acc := { acc with totalTime := acc.totalTime + t }
            if status ≥ 400 then
              let d : Dct := [("image_url", .s imgUrl), ("alt_text", .s (altOrNA alt)),
                ("status_code", .n status), ("status_message", .s (imgStatusMessage status)),
                ("found_on_page", .s page), ("page_url", .s url),
                ("load_time_ms", .n (pyRound0 t))]
              imageInner cfg net c page url rest
                { acc with pageBroken := acc.pageBroken ++ [d] }
                { st with brokenImages := st.brokenImages ++ [d] }
            else
              let isImage := pyContains (pyLower contentType) "image"
              if ¬isImage ∧ contentType ≠ "" then
                let d : Dct := [("image_url", .s imgUrl), ("alt_text", .s (altOrNA alt)),
                  ("status_code", .s "INVALID_TYPE"),
                  ("status_message", .s ("Not an image: " ++ contentType)),
                  ("found_on_page", .s page), ("page_url", .s url),
                  ("load_time_ms", .n (pyRound0 t))]
                imageInner cfg net c page url rest
                  { acc with pageBroken := acc.pageBroken ++ [d] }
                  { st with brokenImages := st.brokenImages ++ [d] }
              else
                let d : Dct := [("image_url", .s imgUrl), ("alt_text", .s (altOrNA alt)),
                  ("status_code", .n status), ("load_time_ms", .n (pyRound0 t)),
                  ("content_type", .s contentType), ("found_on_page", .s page)]
                let acc := { acc with pageImages := acc.pageImages ++ [d] }
                let st := { st with allImages := st.allImages ++ [d] }
                if t > cfg.slowThresholdMs then
                  let ds : Dct := [("image_url", .s imgUrl), ("alt_text", .s (altOrNA alt)),
                    ("load_time_ms", .n (pyRound0 t)), ("found_on_page", .s page),
                    ("page_url", .s url)]
                  imageInner cfg net c page url rest
                    { acc with pageSlow := acc.pageSlow ++ [ds] }
                    { st with slowImages := st.slowImages ++ [ds] }
                else imageInner cfg net c page url rest acc st
        | .timeout _ =>
            let d : Dct := [("image_url", .s imgUrl), ("alt_text", .s (altOrNA alt)),
              ("status_code", .s "TIMEOUT"),
              ("status_message", .s "Request timed out - image may be unreachable"),
              ("found_on_page", .s page), ("page_url", .s url),
              ("load_time_ms", .n (cfg.imageTimeoutS * 1000))]
            imageInner cfg net c page url rest
              { acc with pageBroken := acc.pageBroken ++ [d] }
              { st with brokenImages := st.brokenImages ++ [d] }
        | .sslError _ =>
            let d : Dct := [("image_url", .s imgUrl), ("alt_text", .s (altOrNA alt)),
              ("status_code", .s "SSL_ERROR"),
              ("status_message", .s "SSL Certificate error"),
              ("found_on_page", .s page), ("page_url", .s url),
              ("load_time_ms", .n 0)]
            imageInner cfg net c page url rest
              { acc with pageBroken := acc.pageBroken ++ [d] }
              { st with brokenImages := st.brokenImages ++ [d] }
        | .connError _ =>
            let d : Dct := [("image_url", .s imgUrl), ("alt_text", .s (altOrNA alt)),
              ("status_code", .s "CONNECTION_ERROR"),
              ("status_message", .s "Connection failed"),
              ("found_on_page", .s page), ("page_url", .s url),
              ("load_time_ms", .n 0)]
            imageInner cfg net c page url rest
              { acc with pageBroken := acc.pageBroken ++ [d] }
              { st with brokenImages := st.brokenImages ++ [d] }
        | .exn m =>
            let d : Dct := [("image_url", .s imgUrl), ("alt_text", .s (altOrNA alt)),
              ("status_code", .s "ERROR"), ("status_message", .s (pyTake m 100)),
              ("found_on_page", .s page), ("page_url", .s url),
              ("load_time_ms", .n 0)]
            imageInner cfg net c page url rest
              { acc with pageBroken := acc.pageBroken ++ [d] }
              { st with brokenImages := st.brokenImages ++ [d] }
where
  /-- `ImageChecker._get_status_message`. -/
  imgStatusMessage (status : Nat) : String :=
    if status = 400 then "Bad Request"
    else if status = 401 then "Unauthorized"
    else if status = 403 then "Forbidden - Access Denied"
    else if status = 404 then "Not Found - Image does not exist"
    else if status = 405 then "Method Not Allowed"
    else if status = 408 then "Request Timeout"
    else if status = 410 then "Gone - Image permanently removed"
    else if status = 500 then "Internal Server Error"
    else if status = 502 then "Bad Gateway"
    else if status = 503 then "Service Unavailable"
    else if status = 504 then "Gateway Timeout"
    else "HTTP Error " ++ toString status

/-- The per-page findings emitted after the image loop
(`_check_images_per_page` lines 344-388): broken / slow / missing-alt
findings for non-empty buckets, and the page success summary exactly when
there are neither broken nor slow images. -/
def imagePageFindings (cfg : Config) (page url : String) (totalImages capped : Nat)
    (acc : ImgPageAcc) : List MonitorResult :=
  let avg : ℚ :=
    if acc.pageImages ≠ [] then pyRound0 (acc.totalTime / acc.pageImages.length) else 0
  let nb := acc.pageBroken.length
  let ns := acc.pageSlow.length
  let na := acc.pageMissingAlt.length
  (if acc.pageBroken ≠ [] then
    [mkResult "images" "error"
      (toString nb ++ " broken images on " ++ page) "high" (some url) none
      [("error_summary", .s ("Found " ++ toString nb ++ " broken/unreachable images")),
       ("broken_images", dObjList acc.pageBroken),
       ("total_images", .n totalImages)]]
   else []) ++
  (if acc.pageSlow ≠ [] then
    [mkResult "images" "warning"
      (toString ns ++ " slow images on " ++ page ++ " (>" ++
        toString (cfg.slowThresholdMs / 1000) ++ "s)") "medium" (some url) none
      [("slow_images", dObjList acc.pageSlow),
       ("avg_load_time_ms", .n avg),
       ("threshold_ms", .n cfg.slowThresholdMs)]]
   else []) ++
  (if acc.pageMissingAlt ≠ [] then
    [mkResult "images" "warning"
      (toString na ++ " images missing alt text on " ++ page) "low" (some url) none
      [("missing_alt_images", dObjList acc.pageMissingAlt),
       ("seo_impact", .s "Missing alt text hurts SEO and accessibility")]]
   else []) ++
  (if acc.pageBroken = [] ∧ acc.pageSlow = [] then
    [mkResult "images" "success"
      ("All " ++ toString capped ++ " images valid on " ++ page ++ " (avg: " ++
        toString avg ++ "ms)") "info" (some url) (some avg)
      [("total_images", .n capped),
       ("checked", .n acc.pageImages.length),
       ("avg_load_time_ms", .n avg)]]
   else [])

/-- One page of `_check_images_per_page` (after the cancellation sample):
fetch the page; a non-200 status skips the page with *no* finding; a fetch
exception is caught by the page-level handler and reported as one error
finding; otherwise extract under the content scope, apply the per-page
cap, run the verification loop and emit the page findings. -/
def imagePage (cfg : Config) (net : Net) (c : Nat → Bool) (page : String)
    (st : ImageState) : ImageState :=
  let url := cfg.pageUrl page
  let st := { st with pageLog := st.pageLog ++ [url] }
  match net.get url with
  | .resp status _ _ content _ =>
      if status ≠ 200 then st
      else
        let body := imageContentScope cfg.mainContentOnly cfg.ignoreHeader cfg.ignoreFooter content
        let images := extractImages body url
        let totalImages := images.length
        let images :=
          if cfg.maxImagesPerPage > 0 ∧ images.length > cfg.maxImagesPerPage then
            images.take cfg.maxImagesPerPage
          else images
        let (acc, st) := imageInner cfg net c page url images ⟨[], [], [], [], 0⟩ st
        { st with results :=
            st.results ++ imagePageFindings cfg page url totalImages images.length acc }
  | .timeout m | .sslError m | .connError m | .exn m =>
      { st with results := st.results ++
          [mkResult "images" "error"
            ("Failed to check images on " ++ page ++ ": " ++ pyTake m 100)
            "high" (some url)] }

/-- The page loop of `_check_images_per_page`: cancellation sampled before
each page; once true the loop breaks. -/
def imagePages (cfg : Config) (net : Net) (c : Nat → Bool) :
    List String → ImageState → ImageState
  | [], st => st
  | p :: rest, st =>
      let cancelled := c st.tick
      let st := { st with tick := st.tick + 1 }
      if cancelled then st
      else imagePages cfg net c rest (imagePage cfg net c p st)

/-- `ImageChecker._generate_summary`: site-wide findings with the detail
lists capped to the first 20 entries while the counted totals are full. -/
def imageSummary (cfg : Config) (st : ImageState) : List MonitorResult :=
  (if st.brokenImages ≠ [] then
    [mkResult "images" "error"
      ("Found " ++ toString st.brokenImages.length ++ " broken images across site")
      "high" none none
      [("summary", .s ("Checked " ++ toString st.checkedImages.length ++
        " images, found " ++ toString st.brokenImages.length ++ " broken")),
       ("broken_images", dObjList (st.brokenImages.take 20)),
       ("total_checked", .n st.checkedImages.length)]]
   else []) ++
  (if st.slowImages ≠ [] then
    [mkResult "images" "warning"
      (toString st.slowImages.length ++ " slow-loading images across site (>" ++
        toString (cfg.slowThresholdMs / 1000) ++ "s)")
      "medium" none none
      [("slow_images", dObjList (st.slowImages.take 20)),
       ("threshold_ms", .n cfg.slowThresholdMs)]]
   else []) ++
  (if st.missingAltImages ≠ [] then
    [mkResult "images" "warning"
      (toString st.missingAltImages.length ++
        " images missing alt text (SEO/accessibility issue)")
      "low" none none
      [("missing_alt_images", dObjList (st.missingAltImages.take 20)),
       ("seo_impact", .s "Alt text is important for SEO and screen readers")]]
   else []) ++
  (if st.brokenImages = [] ∧ st.slowImages = [] then
    [mkResult "images" "success"
      ("All " ++ toString st.checkedImages.length ++
        " images are valid and loading properly") "info" none none
      [("summary", .s "All images loaded successfully"),
       ("total_checked", .n st.checkedImages.length),
       ("missing_alt_count", .n st.missingAltImages.length)]]
   else [])

/-- `ImageChecker.run` in HTTP mode: reset state, scan the critical pages,
append the summary. -/
def imageRun (cfg : Config) (net : Net) (c : Nat → Bool) : ImageState :=
  let st := imagePages cfg net c cfg.criticalPages ImageState.init
  { st with results := st.results ++ imageSummary cfg st }

/-! ## Video checker (`monitors/video_checker.py`) -/

/-- `re.search(marker ++ "([valid]{n})", s)`: scan for an occurrence of the
literal `marker` followed by exactly `n` characters of the class; on
failure at one position the scan resumes one character later, as the regex
engine does. -/
def reSearchFixed (marker : String) (n : Nat) (valid : Char → Bool) :
    List Char → Option String
  | [] => none
  | c :: cs =>
      if marker.data.isPrefixOf (c :: cs) then
        let idChars := ((c :: cs).drop marker.data.length).take n
        if idChars.length = n ∧ idChars.all valid then some (String.mk idChars)
        else reSearchFixed marker n valid cs
      else reSearchFixed marker n valid cs

/-- `re.search(marker ++ "([valid]+)", s)`: as above with a maximal
nonempty run of the class. -/
def reSearchRun (marker : String) (valid : Char → Bool) :
    List Char → Option String
  | [] => none
  | c :: cs =>
      if marker.data.isPrefixOf (c :: cs) then
        let run := ((c :: cs).drop marker.data.length).takeWhile valid
        if run ≠ [] then some (String.mk run)
        else reSearchRun marker valid cs
      else reSearchRun marker valid cs

/-- The YouTube id character class `[a-zA-Z0-9_-]`. -/
def ytChar (c : Char) : Bool := c.isAlphanum || c = '_' || c = '-'

/-- One extracted video embed (`_extract_videos` entry). -/
structure VideoRef where
  url : String
  videoId : String
  vtype : String
  embedUrl : String
  deriving Repr, BEq, DecidableEq

/-- The iframe loop of `VideoChecker._extract_videos`: YouTube embed
patterns (first match wins), then Vimeo, then Wistia, deduplicating on the
provider id. -/
def extractIframeVideos : List IframeTag → List String → List VideoRef × List String
  | [], seen => ([], seen)
  | f :: rest, seen =>
      let src := (pyOrStr f.src f.dataSrc).getD ""
      let ytId :=
        match reSearchFixed "youtube.com/embed/" 11 ytChar src.data with
        | some v => some v
        | none =>
          match reSearchFixed "youtube-nocookie.com/embed/" 11 ytChar src.data with
          | some v => some v
          | none => reSearchFixed "youtu.be/" 11 ytChar src.data
      let (vs1, seen) :=
        match ytId with
        | some vid =>
            if vid ∈ seen then ([], seen)
            else ([VideoRef.mk src vid "youtube" ("https://www.youtube.com/embed/" ++ vid)],
                  seen ++ [vid])
        | none => ([], seen)
      let (vs2, seen) :=
        match reSearchRun "player.vimeo.com/video/" Char.isDigit src.data with
        | some vid =>
            if vid ∈ seen then ([], seen)
            else ([VideoRef.mk src vid "vimeo" ("https://player.vimeo.com/video/" ++ vid)],
                  seen ++ [vid])
        | none => ([], seen)
      let (vs3, seen) :=
        match reSearchRun "wistia.com/embed/iframe/" Char.isAlphanum src.data with
        | some vid =>
            if vid ∈ seen then ([], seen)
            else ([VideoRef.mk src vid "wistia" src], seen ++ [vid])
        | none => ([], seen)
      let (out, seen) := extractIframeVideos rest seen
      (vs1 ++ vs2 ++ vs3 ++ out, seen)

/-- One HTML5 source URL's contribution (resolve, dedup on the full URL). -/
def html5Entry (baseUrl : String) (src : String) (seen : List String) :
    List VideoRef × List String :=
  let fullUrl := urljoin baseUrl src
  if fullUrl ∈ seen then ([], seen)
  else ([VideoRef.mk fullUrl "" "html5" fullUrl], seen ++ [fullUrl])

/-- The `<video>`-tag loop of `_extract_videos`: `<source>` children when
present, otherwise the tag's own `src`. -/
def extractHtml5Videos (baseUrl : String) :
    List VideoTag → List String → List VideoRef × List String
  | [], seen => ([], seen)
  | v :: rest, seen =>
      let (here, seen) :=
        if v.sourceSrcs ≠ [] then
          v.sourceSrcs.foldl (fun (acc : List VideoRef × List String) srcOpt =>
            match srcOpt with
            | some src =>
                let (vs, seen2) := html5Entry baseUrl src acc.2
                (acc.1 ++ vs, seen2)
            | none => acc) ([], seen)
        else
          match v.src with
          | some src => html5Entry baseUrl src seen
          | none => ([], seen)
      let (out, seen) := extractHtml5Videos baseUrl rest seen
      (here ++ out, seen)

/-- The anchor loop of `_extract_videos`: YouTube watch/short links are
kept only when the anchor's class list suggests a JS-driven embed. -/
def extractYoutubeLinks : List Anchor → List String → List VideoRef × List String
  | [], seen => ([], seen)
  | a :: rest, seen =>
      match a.href with
      | none => extractYoutubeLinks rest seen
      | some href =>
        let vid :=
          match reSearchFixed "youtube.com/watch?v=" 11 ytChar href.data with
          | some v => some v
          | none => reSearchFixed "youtu.be/" 11 ytChar href.data
        let (here, seen) :=
          match vid with
          | some v =>
              let parentClasses := pyLower (String.intercalate " " a.classes)
              if ["video", "play", "youtube", "popup"].any
                  (fun x => pyContains parentClasses x) then
                if v ∈ seen then ([], seen)
                else ([VideoRef.mk href v "youtube_link"
                        ("https://www.youtube.com/embed/" ++ v)], seen ++ [v])
              else ([], seen)
          | none => ([], seen)
        let (out, seen) := extractYoutubeLinks rest seen
        (here ++ out, seen)

/-- `VideoChecker._extract_videos`. -/
def extractVideos (b : Body) (baseUrl : String) : List VideoRef :=
  let (ifr, seen) := extractIframeVideos b.iframes []
  let (h5, seen) := extractHtml5Videos baseUrl b.videoTags seen
  let (yl, _) := extractYoutubeLinks b.anchors seen
  ifr ++ h5 ++ yl

/-- `VideoChecker._check_youtube_video`: the oEmbed probe and its status
classification.  Returns `(availability, error message, urls fetched)`. -/
def checkYoutubeVideo (net : Net) (vid : String) : Bool × Option String × List String :=
  if vid = "" then (false, some "No video ID found", [])
  else
    let oembedUrl := "https://www.youtube.com/oembed?url=https://www.youtube.com/watch?v=" ++
      vid ++ "&format=json"
    match net.get oembedUrl with
    | .resp status _ _ _ _ =>
        if status = 200 then (true, none, [oembedUrl])
        else if status = 401 then (false, some "Video is private or restricted", [oembedUrl])
        else if status = 403 then (false, some "Video embedding disabled", [oembedUrl])
        else if status = 404 then (false, some "Video not found or deleted", [oembedUrl])
        else (false, some ("YouTube returned status " ++ toString status), [oembedUrl])
    | .timeout _ => (false, some "Timeout checking YouTube video", [oembedUrl])
    | .sslError m | .connError m | .exn m =>
        (false, some ("Error: " ++ pyTake m 50), [oembedUrl])

/-- `VideoChecker._check_vimeo_video`. -/
def checkVimeoVideo (net : Net) (vid : String) : Bool × Option String × List String :=
  if vid = "" then (false, some "No video ID found", [])
  else
    let oembedUrl := "https://vimeo.com/api/oembed.json?url=https://vimeo.com/" ++ vid
    match net.get oembedUrl with
    | .resp status _ _ _ _ =>
        if status = 200 then (true, none, [oembedUrl])
        else if status = 403 then (false, some "Video is private", [oembedUrl])
        else if status = 404 then (false, some "Video not found", [oembedUrl])
        else (false, some ("Vimeo returned status " ++ toString status), [oembedUrl])
    | .timeout _ => (false, some "Timeout checking Vimeo video", [oembedUrl])
    | .sslError m | .connError m | .exn m =>
        (false, some ("Error: " ++ pyTake m 50), [oembedUrl])

/-- `VideoChecker._check_html5_video` (`HEAD` probe with content-type
check). -/
def checkHtml5Video (net : Net) (videoUrl : String) : Bool × Option String × List String :=
  match net.head videoUrl with
  | .resp status _ contentType _ _ =>
      if status = 200 then
        if pyContains (pyLower contentType) "video" then (true, none, [videoUrl])
        else (false, some ("Not a video file: " ++ contentType), [videoUrl])
      else if status = 403 then (false, some "Access denied", [videoUrl])
      else if status = 404 then (false, some "Video file not found", [videoUrl])
      else (false, some ("HTTP " ++ toString status), [videoUrl])
  | .timeout _ => (false, some "Timeout loading video", [videoUrl])
  | .sslError m | .connError m | .exn m =>
      (false, some ("Error: " ++ pyTake m 50), [videoUrl])

/-- `VideoChecker._check_embed_url` (fallback `HEAD` probe; every
exception, timeouts included, lands in the generic handler). -/
def checkEmbedUrl (net : Net) (embedUrl : String) : Bool × Option String × List String :=
  match net.head embedUrl with
  | .resp status _ _ _ _ =>
      if status < 400 then (true, none, [embedUrl])
      else (false, some ("HTTP " ++ toString status), [embedUrl])
  | .timeout m | .sslError m | .connError m | .exn m =>
      (false, some ("Error: " ++ pyTake m 50), [embedUrl])

/-- `VideoChecker._check_video_availability` (provider dispatch). -/
def checkVideoAvailability (net : Net) (v : VideoRef) : Bool × Option String × List String :=
  if v.vtype = "youtube" ∨ v.vtype = "youtube_link" then checkYoutubeVideo net v.videoId
  else if v.vtype = "vimeo" then checkVimeoVideo net v.videoId
  else if v.vtype = "html5" then checkHtml5Video net v.url
  else checkEmbedUrl net v.embedUrl

/-- The run-wide state of `VideoChecker`, instrumented like `ImageState`.
The video checker performs no `is_cancelled()` sampling, so it carries no
tick counter. -/
structure VideoState where
  checkedVideos : List String
  brokenVideos : List Dct
  allVideos : List Dct
  results : List MonitorResult
  verifyLog : List String
  pageLog : List String

/-- The fresh state `VideoChecker.run` resets to. -/
def VideoState.init : VideoState := ⟨[], [], [], [], [], []⟩

/-- The video-verification loop of `_check_videos_per_page` lines 112-142:
dedup on the embed URL (marked checked before probing), then the
availability probe and the per-page broken/working buckets.  There is no
cancellation sample anywhere in this loop. -/
def videoInner (net : Net) (page url : String) :
    List VideoRef → List Dct × List Dct → VideoState → (List Dct × List Dct) × VideoState
  | [], acc, st => (acc, st)
  | v :: rest, (pageBroken, pageVideos), st =>
      if v.url ∈ st.checkedVideos then videoInner net page url rest (pageBroken, pageVideos) st
      else
        let st := { st with checkedVideos := st.checkedVideos ++ [v.url] }
        let (isAvailable, errMsg, fetched) := checkVideoAvailability net v
        let st := { st with verifyLog := st.verifyLog ++ fetched }
        let d : Dct := [("video_url", .s v.url), ("video_id", .s v.videoId),
          ("video_type", .s v.vtype), ("found_on_page", .s page), ("page_url", .s url),
          ("is_available", .b isAvailable),
          ("error", match errMsg with | some m => .s m | none => .null)]
        if isAvailable then
          videoInner net page url rest (pageBroken, pageVideos ++ [d])
            { st with allVideos := st.allVideos ++ [d] }
        else
          let d := d ++ [("status", .s "BROKEN"),
            ("status_message", match errMsg with | some m => .s m | none => .null)]
          videoInner net page url rest (pageBroken ++ [d], pageVideos)
            { st with brokenVideos := st.brokenVideos ++ [d] }

/-- The `'No videos found on {page}'` finding (`_check_videos_per_page`
lines 164-167): status `'info'`, severity `'low'`. -/
def noVideosResult (page url : String) : MonitorResult :=
  mkResult "videos" "info" ("No videos found on " ++ page) "low" (some url)

/-- One page of `VideoChecker._check_videos_per_page`: non-200 page status
skips the page silently; a fetch exception yields one medium error
finding; otherwise extract, verify, and emit the broken / success / info
finding for the page. -/
def videoPage (cfg : Config) (net : Net) (page : String) (st : VideoState) : VideoState :=
  let url := cfg.pageUrl page
  let st := { st with pageLog := st.pageLog ++ [url] }
  match net.get url with
  | .resp status _ _ content _ =>
      if status ≠ 200 then st
      else
        let videos := extractVideos content.full url
        let (acc, st) := videoInner net page url videos ([], []) st
        let pageBroken := acc.1
        let pageVideos := acc.2
        let findings :=
          (if pageBroken ≠ [] then
            [mkResult "videos" "error"
              (toString pageBroken.length ++ " broken videos on " ++ page)
              "high" (some url) none
              [("error_summary", .s ("Found " ++ toString pageBroken.length ++
                 " broken/unavailable videos")),
               ("broken_videos", dObjList pageBroken),
               ("total_videos", .n videos.length)]]
           else []) ++
          (if pageBroken = [] ∧ videos ≠ [] then
            [mkResult "videos" "success"
              ("All " ++ toString videos.length ++ " videos working on " ++ page)
              "info" (some url) none
              [("total_videos", .n videos.length),
               ("all_checked_videos", dObjList pageVideos)]]
           else if videos = [] then [noVideosResult page url]
           else [])
        { st with results := st.results ++ findings }
  | .timeout m | .sslError m | .connError m | .exn m =>
      { st with results := st.results ++
          [mkResult "videos" "error"
            ("Failed to check videos on " ++ page ++ ": " ++ pyTake m 100)
            "medium" (some url)] }

/-- The page loop of `_check_videos_per_page`; unlike the link and image
checkers it never samples the cancellation event. -/
def videoPages (cfg : Config) (net : Net) : List String → VideoState → VideoState
  | [], st => st
  | p :: rest, st => videoPages cfg net rest (videoPage cfg net p st)

/-- `VideoChecker._generate_summary`. -/
def videoSummary (st : VideoState) : List MonitorResult :=
  if st.brokenVideos ≠ [] then
    [mkResult "videos" "error"
      ("Found " ++ toString st.brokenVideos.length ++ " broken videos across site")
      "high" none none
      [("summary", .s ("Checked " ++ toString st.checkedVideos.length ++
         " videos, found " ++ toString st.brokenVideos.length ++ " broken")),
       ("broken_videos", dObjList (st.brokenVideos.take 20)),
       ("total_checked", .n st.checkedVideos.length)]]
  else if st.allVideos ≠ [] then
    [mkResult "videos" "success"
      ("All " ++ toString st.checkedVideos.length ++ " videos are working")
      "info" none none
      [("summary", .s "All embedded videos are accessible"),
       ("total_checked", .n st.checkedVideos.length)]]
  else
    [mkResult "videos" "info" "No videos found on the checked pages" "low" none none
      [("summary", .s "No YouTube, Vimeo, or HTML5 videos detected")]]

/-- `VideoChecker.run` in HTTP mode.  The cancellation signal `c` is
available to the checker through its base class but, faithfully to the
source, is never sampled: the run does not depend on it. -/
def videoRun (cfg : Config) (net : Net) (_c : Nat → Bool) : VideoState :=
  let st := videoPages cfg net cfg.criticalPages VideoState.init
  { st with results := st.results ++ videoSummary st }

/-! ## Link checker (`monitors/link_checker.py`) -/

/-- `LinkChecker._get_status_message`. -/
def linkStatusMessage (status : Nat) : String :=
  if status = 400 then "Bad Request"
  else if status = 401 then "Unauthorized"
  else if status = 403 then "Forbidden - Access Denied"
  else if status = 404 then "Not Found - Page does not exist"
  else if status = 405 then "Method Not Allowed"
  else if status = 408 then "Request Timeout"
  else if status = 410 then "Gone - Resource permanently removed"
  else if status = 429 then "Too Many Requests"
  else if status = 500 then "Internal Server Error"
  else if status = 502 then "Bad Gateway"
  else if status = 503 then "Service Unavailable"
  else if status = 504 then "Gateway Timeout"
  else "HTTP Error " ++ toString status

/-- `LinkChecker._is_internal`: same netloc as the base URL, or no netloc. -/
def isInternal (storedBase url : String) : Bool :=
  netloc url = netloc storedBase || netloc url = ""

/-- The run-wide state of `LinkChecker`, instrumented with logs:
`resourceLog` records per-page link `GET`s, `crawlGetLog` the crawl's page
`GET`s, `headLog` the external `HEAD` probes, `pageLog` the critical-page
`GET`s.  (`self.all_links_per_page`, write-only bookkeeping consumed by no
finding, is omitted.) -/
structure LinkState where
  checkedUrls : List String
  brokenLinks : List Dct
  redirectChains : List Dct
  results : List MonitorResult
  resourceLog : List String
  crawlGetLog : List String
  headLog : List String
  pageLog : List String
  tick : Nat

/-- The fresh state `LinkChecker.run` resets to. -/
def LinkState.init : LinkState := ⟨[], [], [], [], [], [], [], [], 0⟩

/-- The anchor extraction inside `_check_links_per_page` (HTTP branch,
lines 227-233): filter out fragment-only / `javascript:` / `mailto:` /
`tel:` hrefs, resolve against the page URL, strip the fragment, keep the
first occurrence of each URL with its (or the href's) first 50 text
characters. -/
def pageAnchorLinks (pageUrl : String) : List Anchor → List String → List (String × String)
  | [], _ => []
  | a :: rest, seen =>
      match a.href with
      | none => pageAnchorLinks pageUrl rest seen
      | some href =>
          if href ≠ "" ∧
              ¬(pyStartsWithAny href ["#", "javascript:", "mailto:", "tel:"]) then
            let fullUrl := splitFragment (urljoin pageUrl href)
            let text := if pyTake a.text 50 ≠ "" then pyTake a.text 50 else pyTake href 50
            if fullUrl ∈ seen then pageAnchorLinks pageUrl rest seen
            else (fullUrl, text) :: pageAnchorLinks pageUrl rest (seen ++ [fullUrl])
          else pageAnchorLinks pageUrl rest seen

/-- The page-local buckets of `_check_links_per_page`. -/
structure LinkPageAcc where
  pageBroken : List Dct
  pageSlow : List Dct
  pageLinks : List Dct
  totalTime : ℚ

/-- One broken-link entry for `self.broken_links` (per-page phase). -/
def brokenGlobalEntry (linkUrl text : String) (status statusMessage : DVal)
    (page : String) : Dct :=
  [("url", .s linkUrl), ("text", .s text), ("status", status),
   ("status_message", statusMessage), ("source", .s page)]

/-- One `error_detail` entry for the page bucket (per-page phase). -/
def brokenPageEntry (linkUrl text : String) (statusCode statusMessage : DVal)
    (page url : String) : Dct :=
  [("link_url", .s linkUrl), ("link_text", .s text), ("status_code", statusCode),
   ("status_message", statusMessage), ("found_on_page", .s page), ("page_url", .s url)]

/-- The link-verification loop of `_check_links_per_page` lines 243-371:
cancellation sampled before each link; URLs already in the checked set are
skipped; a `GET` that returns a response adds the URL to the checked set
(for *any* status), while a `GET` that raises does not; outcomes are
classified into broken / slow / valid with the source's exact messages
(an unknown exception on an external link is only logged). -/
def linkInner (cfg : Config) (net : Net) (c : Nat → Bool) (page url : String) :
    List (String × String) → LinkPageAcc → LinkState → LinkPageAcc × LinkState
  | [], acc, st => (acc, st)
  | (linkUrl, text) :: rest, acc, st =>
      let cancelled := c st.tick
      let st := { st with tick := st.tick + 1 }
      if cancelled then (acc, st)
      else if linkUrl ∈ st.checkedUrls then linkInner cfg net c page url rest acc st
      else
        let st := { st with resourceLog := st.resourceLog ++ [linkUrl] }
        match net.get linkUrl with
        | .resp status t _ _ _ =>
            let st := { st with checkedUrls := st.checkedUrls ++ [linkUrl] }
            let acc := { acc with totalTime := acc.totalTime + t }
            if status ≥ 400 then
              linkInner cfg net c page url rest
                { acc with pageBroken := acc.pageBroken ++
                    [brokenPageEntry linkUrl text (.n status)
                      (.s (linkStatusMessage status)) page url] }
                { st with brokenLinks := st.brokenLinks ++
                    [brokenGlobalEntry linkUrl text (.n status)
                      (.s (linkStatusMessage status)) page] }
            else
              let acc :=
                if t > 3000 then
                  { acc with pageSlow := acc.pageSlow ++
                      [[("url", .s linkUrl), ("text", .s text),
                        ("response_time_ms", .n (pyRound0 t))]] }
                else acc
              linkInner cfg net c page url rest
                { acc with pageLinks := acc.pageLinks ++
                    [[("url", .s linkUrl), ("text", .s text),
                      ("status_code", .n status),
                      ("response_time_ms", .n (pyRound0 t))]] } st
        | .timeout _ =>
            linkInner cfg net c page url rest
              { acc with pageBroken := acc.pageBroken ++
                  [brokenPageEntry linkUrl text (.s "timeout")
                    (.s "Request timed out - link may be unreachable") page url] }
              { st with brokenLinks := st.brokenLinks ++
                  [brokenGlobalEntry linkUrl text (.s "timeout")
                    (.s "Request timed out") page] }
        | .sslError m =>
            linkInner cfg net c page url rest
              { acc with pageBroken := acc.pageBroken ++
                  [brokenPageEntry linkUrl text (.s "SSL_ERROR")
                    (.s ("SSL Certificate error: " ++ pyTake m 100)) page url] }
              { st with brokenLinks := st.brokenLinks ++
                  [brokenGlobalEntry linkUrl text (.s "SSL_ERROR")
                    (.s "SSL Certificate error") page] }
        | .connError m =>
            linkInner cfg net c page url rest
              { acc with pageBroken := acc.pageBroken ++
                  [brokenPageEntry linkUrl text (.s "CONNECTION_ERROR")
                    (.s ("Connection failed: " ++ pyTake m 100)) page url] }
              { st with brokenLinks := st.brokenLinks ++
                  [brokenGlobalEntry linkUrl text (.s "CONNECTION_ERROR")
                    (.s "Connection failed") page] }
        | .exn m =>
            if ¬isInternal cfg.stored linkUrl then
              linkInner cfg net c page url rest acc st
            else
              linkInner cfg net c page url rest
                { acc with pageBroken := acc.pageBroken ++
                    [brokenPageEntry linkUrl text (.s "ERROR")
                      (.s ("Unknown error: " ++ pyTake m 100)) page url] }
                { st with brokenLinks := st.brokenLinks ++
                    [brokenGlobalEntry linkUrl text (.s "ERROR")
                      (.s (pyTake m 100)) page] }

/-- Sort key for `slowest_links` (`x['response_time_ms']`). -/
def rtKey (d : Dct) : ℚ :=
  match dGet d "response_time_ms" with
  | some (.n q) => q
  | _ => 0

/-- Stable descending insertion for `sorted(..., reverse=True)`. -/
def insertByRtDesc (x : Dct) : List Dct → List Dct
  | [] => [x]
  | y :: ys => if rtKey x > rtKey y then x :: y :: ys else y :: insertByRtDesc x ys

/-- `sorted(page_links, key=response time, reverse=True)` (stable). -/
def sortByRtDesc : List Dct → List Dct
  | [] => []
  | x :: xs => insertByRtDesc x (sortByRtDesc xs)

/-- The per-page findings of `_check_links_per_page` lines 373-421: a
broken finding and a slow finding for non-empty buckets, and the page
success finding exactly when no link was broken (slow links do not
suppress it). -/
def linkPageFindings (page url : String) (numLinks : Nat) (acc : LinkPageAcc) :
    List MonitorResult :=
  let avg : ℚ :=
    if acc.pageLinks ≠ [] then pyRound0 (acc.totalTime / acc.pageLinks.length) else 0
  (if acc.pageBroken ≠ [] then
    [mkResult "links" "error"
      (toString acc.pageBroken.length ++ " broken anchor links on " ++ page)
      "high" (some url) none
      [("error_summary", .s ("Found " ++ toString acc.pageBroken.length ++
         " broken links by clicking each anchor tag")),
       ("broken_links", dObjList acc.pageBroken),
       ("total_anchor_links", .n numLinks)]]
   else []) ++
  (if acc.pageSlow ≠ [] then
    [mkResult "links" "warning"
      (toString acc.pageSlow.length ++ " slow anchor links on " ++ page ++ " (>3s)")
      "medium" (some url) none
      [("slow_links", dObjList acc.pageSlow),
       ("avg_response_time_ms", .n avg)]]
   else []) ++
  (if acc.pageBroken = [] then
    [mkResult "links" "success"
      ("All " ++ toString numLinks ++ " anchor links valid on " ++ page ++
        " (avg: " ++ toString avg ++ "ms)")
      "info" (some url) (some avg)
      [("total_anchor_links", .n numLinks),
       ("checked", .n acc.pageLinks.length),
       ("avg_response_time_ms", .n avg),
       ("slowest_links", dObjList ((sortByRtDesc acc.pageLinks).take 5)),
       ("all_checked_links", dObjList (acc.pageLinks ++ acc.pageBroken))]]
   else [])

/-- One page of `_check_links_per_page` (HTTP branch): a non-200 page
status skips the page with *no* finding (`continue`); a fetch exception is
caught by the page-level handler as one medium error finding; otherwise
extract anchors under the content scope, apply the per-page cap, run the
verification loop and emit the page findings. -/
def linkPage (cfg : Config) (net : Net) (c : Nat → Bool) (page : String)
    (st : LinkState) : LinkState :=
  let url := cfg.pageUrl page
  let st := { st with pageLog := st.pageLog ++ [url] }
  match net.get url with
  | .resp status _ _ content _ =>
      if status ≠ 200 then st
      else
        let body := linkContentScope cfg.mainContentOnly cfg.ignoreHeader cfg.ignoreFooter content
        let links := pageAnchorLinks url body.anchors []
        let links :=
          if cfg.maxLinksPerPage > 0 ∧ links.length > cfg.maxLinksPerPage then
            links.take cfg.maxLinksPerPage
          else links
        let (acc, st) := linkInner cfg net c page url links ⟨[], [], [], 0⟩ st
        { st with results := st.results ++ linkPageFindings page url links.length acc }
  | .timeout m | .sslError m | .connError m | .exn m =>
      { st with results := st.results ++
          [mkResult "links" "error"
            ("Link check failed for " ++ page ++ ": " ++ pyTake m 50)
            "medium" (some url)] }

/-- The page loop of `_check_links_per_page`: cancellation sampled before
each page (after the URL is formed, before the fetch). -/
def linkPages (cfg : Config) (net : Net) (c : Nat → Bool) :
    List String → LinkState → LinkState
  | [], st => st
  | p :: rest, st =>
      let cancelled := c st.tick
      let st := { st with tick := st.tick + 1 }
      if cancelled then st
      else linkPages cfg net c rest (linkPage cfg net c p st)

/-- `LinkChecker._extract_links` (crawl-phase extraction): anchor hrefs
minus the excluded schemes, resolved and fragment-stripped, passed through
`list(set(...))` — modelled as first-occurrence deduplication. -/
def extractLinks (baseUrl : String) : List Anchor → List String → List String
  | [], _ => []
  | a :: rest, seen =>
      match a.href with
      | none => extractLinks baseUrl rest seen
      | some href =>
          if href ≠ "" ∧
              ¬(pyStartsWithAny href ["#", "javascript:", "mailto:", "tel:"]) then
            let fullUrl := splitFragment (urljoin baseUrl href)
            if fullUrl ∈ seen then extractLinks baseUrl rest seen
            else fullUrl :: extractLinks baseUrl rest (seen ++ [fullUrl])
          else extractLinks baseUrl rest seen

/-- `LinkChecker._check_external_link`: skipped when the URL is already in
the checked set; a `HEAD` response adds it to the checked set and records
a broken entry for statuses ≥ 400; every exception is swallowed (and the
URL stays unmarked). -/
def checkExternalLink (net : Net) (url source : String) (st : LinkState) : LinkState :=
  if url ∈ st.checkedUrls then st
  else
    let st := { st with headLog := st.headLog ++ [url] }
    match net.head url with
    | .resp status _ _ _ _ =>
        let st := { st with checkedUrls := st.checkedUrls ++ [url] }
        if status ≥ 400 then
          { st with brokenLinks := st.brokenLinks ++
              [[("url", .s url), ("status", .n status),
                ("status_message", .s (linkStatusMessage status)),
                ("source", .s source), ("is_external", .b true)]] }
        else st
    | .timeout _ | .sslError _ | .connError _ | .exn _ => st

/-- The link-dispatch loop inside the crawl (lines 491-495): internal
not-yet-crawled links are appended to the queue, external ones get the
best-effort `HEAD` probe. -/
def crawlDispatch (cfg : Config) (net : Net) (pageUrl : String) (crawled : List String)
    (depth : Nat) : List String → List (String × Nat) × LinkState → List (String × Nat) × LinkState
  | [], out => out
  | link :: rest, (queue, st) =>
      if isInternal cfg.stored link ∧ link ∉ crawled then
        crawlDispatch cfg net pageUrl crawled depth rest (queue ++ [(link, depth + 1)], st)
      else if cfg.checkExternal ∧ ¬isInternal cfg.stored link then
        crawlDispatch cfg net pageUrl crawled depth rest
          (queue, checkExternalLink net link pageUrl st)
      else crawlDispatch cfg net pageUrl crawled depth rest (queue, st)

/-- `LinkChecker._crawl_site`: the bounded breadth-first crawl.  The
`while` loop is modelled with explicit fuel (each iteration consumes one
unit; theorems quantify over or supply sufficient fuel).  A crawl `GET`
that returns a response marks the URL checked (any status); one that
raises does not.  The `crawled` set is local to the crawl and gates the
fetch *before* it happens. -/
def crawlLoop (cfg : Config) (net : Net) :
    Nat → List (String × Nat) → List String → LinkState → LinkState
  | 0, _, _, st => st
  | _ + 1, [], _, st => st
  | fuel + 1, (url, depth) :: rest, crawled, st =>
      if ¬(st.checkedUrls.length < cfg.maxLinks) then st
      else if url ∈ crawled ∨ depth > cfg.maxDepth then crawlLoop cfg net fuel rest crawled st
      else if cfg.shouldIgnore url then crawlLoop cfg net fuel rest crawled st
      else
        let crawled := crawled ++ [url]
        let st := { st with crawlGetLog := st.crawlGetLog ++ [url] }
        match net.get url with
        | .resp status _ contentType content redirects =>
            let st := { st with checkedUrls := setAdd st.checkedUrls url }
            let st :=
              if redirects > 2 then
                { st with redirectChains := st.redirectChains ++
                    [[("url", .s url), ("chain_length", .n redirects)]] }
              else st
            if status ≥ 400 then
              crawlLoop cfg net fuel rest crawled
                { st with brokenLinks := st.brokenLinks ++
                    [[("url", .s url), ("status", .n status),
                      ("status_message", .s (linkStatusMessage status)),
                      ("source", .s "crawl")]] }
            else if pyContains contentType "text/html" then
              let links := extractLinks url content.full.anchors []
              let (queue, st) := crawlDispatch cfg net url crawled depth links (rest, st)
              crawlLoop cfg net fuel queue crawled st
            else crawlLoop cfg net fuel rest crawled st
        | .timeout _ =>
            crawlLoop cfg net fuel rest crawled
              { st with brokenLinks := st.brokenLinks ++
                  [[("url", .s url), ("status", .s "timeout"),
                    ("status_message", .s "Request timed out - link may be unreachable"),
                    ("source", .s "crawl")]] }
        | .sslError _ | .connError _ | .exn _ =>
            crawlLoop cfg net fuel rest crawled st

/-- The summary detail row of `LinkChecker.run` lines 91-99 (dictionary
lookups with their defaults). -/
def brokenLinkDetail (bl : Dct) : Dct :=
  [("url", (dGet bl "url").getD (.s "Unknown")),
   ("link_text", (dGet bl "text").getD (.s "N/A")),
   ("status", (dGet bl "status").getD (.s "Unknown")),
   ("status_message", (dGet bl "status_message").getD (.s "Unknown error")),
   ("found_on_page", (dGet bl "source").getD (.s "Unknown"))]

/-- The site-wide summary of `LinkChecker.run` lines 88-115: the broken
finding carries a detail row for *every* broken link (no cap). -/
def linkSummarize (st : LinkState) : List MonitorResult :=
  if st.brokenLinks ≠ [] then
    [mkResult "links" "error"
      ("Found " ++ toString st.brokenLinks.length ++ " broken anchor links across site")
      "high" none none
      [("summary", .s ("Clicked " ++ toString st.checkedUrls.length ++
         " anchor links, found " ++ toString st.brokenLinks.length ++ " broken")),
       ("broken_links", dObjList (st.brokenLinks.map brokenLinkDetail)),
       ("total_checked", .n st.checkedUrls.length)]]
  else
    [mkResult "links" "success"
      ("All " ++ toString st.checkedUrls.length ++ " anchor links are valid")
      "info" none none
      [("summary", .s "All anchor tag links were clicked and validated successfully"),
       ("total_checked", .n st.checkedUrls.length)]]

/-- `LinkChecker.run` in HTTP mode: reset state, scan the critical pages,
crawl the site from the stored base URL, then summarize. -/
def linkRun (cfg : Config) (net : Net) (c : Nat → Bool) (fuel : Nat) : LinkState :=
  let st := linkPages cfg net c cfg.criticalPages LinkState.init
  let st := crawlLoop cfg net fuel [(cfg.stored, 0)] [] st
  { st with results := st.results ++ linkSummarize st }

/-! ## Verification predicates -/

/-- `u` was verified at most once so far, and if it was verified at all it
is recorded in the tracking set (checked set or crawled set) that gates
further verification. -/
def OnceInto (u : String) (log tracked : List String) : Prop :=
  log.count u ≤ 1 ∧ (1 ≤ log.count u → u ∈ tracked)

/-! ## Concrete fixtures

Small concrete networks, pages and states used by the closed
counterexample and witness theorems. -/

/-- A page whose single anchor points at an external, timing-out URL. -/
def c1abody : PageContent :=
  PageContent.ofBody { Body.empty with anchors := [⟨some "https://ext.example/x", "ext", []⟩] }

/-- Two configured pages referencing the same timing-out URL. -/
def c1acfg : Config := { baseUrl := "https://site.example", criticalPages := ["/a", "/b"] }

/-- A network where both configured pages serve the external anchor and
everything else (the external URL included) times out. -/
def c1anet : Net :=
  { get := fun u =>
      if u = "https://site.example/a" then .resp 200 0 "text/html" c1abody 0
      else if u = "https://site.example/b" then .resp 200 0 "text/html" c1abody 0
      else .timeout "timed out"
    head := fun _ => .exn "x" }

/-- A page with a single internal anchor to `/b`. -/
def c1bbody : PageContent :=
  PageContent.ofBody { Body.empty with anchors := [⟨some "/b", "b", []⟩] }

/-- One configured page for the cross-phase scenario. -/
def c1bcfg : Config := { baseUrl := "https://site.example", criticalPages := ["/a"] }

/-- A network where the configured page and the crawl root both link to
`/b`, which answers 200. -/
def c1bnet : Net :=
  { get := fun u =>
      if u = "https://site.example/a" then .resp 200 0 "text/html" c1bbody 0
      else if u = "https://site.example" then .resp 200 0 "text/html" c1bbody 0
      else if u = "https://site.example/b" then
        .resp 200 0 "text/html" (PageContent.ofBody Body.empty) 0
      else .timeout "t"
    head := fun _ => .exn "x" }

/-- A page holding 21 distinct relative anchors `/b0 … /b20`. -/
def c5anchors : List Anchor :=
  (List.range 21).map (fun i => ⟨some ("/b" ++ toString i), "broken link", []⟩)

/-- The page content for the 21-broken-links run. -/
def c5content : PageContent := PageContent.ofBody { Body.empty with anchors := c5anchors }

/-- A network where the root page serves the 21 anchors and every other URL
returns 404. -/
def c5net : Net :=
  { get := fun u =>
      if u = "https://site.example/" then .resp 200 0 "text/html" c5content 0
      else .resp 404 10 "" (PageContent.ofBody Body.empty) 0
    head := fun _ => .exn "unreachable" }

/-- Configuration pointing at the fixture site (defaults otherwise). -/
def c5cfg : Config := { baseUrl := "https://site.example" }

/-- Five `<img>` tags `/i0.png … /i4.png`, all with alt text. -/
def c3imgs : List ImgTag :=
  (List.range 5).map
    (fun i => ⟨some ("/i" ++ toString i ++ ".png"), none, none, some ("img " ++ toString i)⟩)

/-- The page content for the five-image scenario. -/
def c3content : PageContent := PageContent.ofBody { Body.empty with imgs := c3imgs }

/-- A network where the root serves the five images, `/i4.png` answers 200
in 4000 ms, and the others answer 200 in 1000 ms. -/
def c3net : Net :=
  { get := fun u =>
      if u = "https://site.example/" then .resp 200 0 "text/html" c3content 0
      else if u = "https://site.example/i4.png" then
        .resp 200 4000 "image/png" (PageContent.ofBody Body.empty) 0
      else .resp 200 1000 "image/png" (PageContent.ofBody Body.empty) 0
    head := fun _ => .exn "unreachable" }

/-- A network answering every `GET` with a 404 page. -/
def c2net : Net :=
  { get := fun _ => .resp 404 0 "text/html" (PageContent.ofBody Body.empty) 0
    head := fun _ => .exn "x" }

/-- A network whose every `GET` raises. -/
def c2xnet : Net :=
  { get := fun _ => .exn "boom"
    head := fun _ => .exn "x" }

/-- A network serving an empty 200 page everywhere. -/
def c8net : Net :=
  { get := fun _ => .resp 200 0 "text/html" (PageContent.ofBody Body.empty) 0
    head := fun _ => .exn "x" }

/-- A page embedding one YouTube iframe. -/
def c4content : PageContent :=
  PageContent.ofBody
    { Body.empty with iframes := [⟨some "https://www.youtube.com/embed/abc12345678", none⟩] }

/-- A network serving the YouTube-embed page at the root and 404 elsewhere
(in particular for the oEmbed probe). -/
def c4net : Net :=
  { get := fun u =>
      if u = "https://site.example/" then .resp 200 0 "text/html" c4content 0
      else .resp 404 0 "text/html" (PageContent.ofBody Body.empty) 0
    head := fun _ => .exn "x" }

/-- A cancellation signal that fires from the third `is_cancelled()` sample
onwards. -/
def c42 : Nat → Bool := fun t => decide (2 ≤ t)

/-- A two-page configuration for the mid-run cancellation scenario. -/
def c4cfg2 : Config := { baseUrl := "https://site.example", criticalPages := ["/", "/two"] }

/-- A one-entry detail dictionary for summary-shape witnesses. -/
def wDct : Dct := [("url", .s "https://site.example/x")]

/-- An image-checker state with one broken, one slow and one missing-alt
item. -/
def wIst : ImageState :=
  ⟨["https://site.example/x"], [wDct], [wDct], [wDct], [], [], [], [], 0⟩

/-- A video-checker state with one broken video. -/
def wVst : VideoState := ⟨["https://v.example/1"], [wDct], [], [], [], []⟩

/-- A link-checker state with one broken link. -/
def wLst : LinkState := ⟨["https://site.example/x"], [wDct], [], [], [], [], [], [], 0⟩

/-! # Theorems -/

/-! ## C9: `get_full_url` normalisation -/

lemma head?_dropWhile {p : Char → Bool} {l : List Char} {a : Char}
    (h : (l.dropWhile p).head? = some a) : p a = false := by
  induction l with
  | nil => simp [List.dropWhile] at h
  | cons x xs ih =>
    rw [List.dropWhile] at h
    by_cases hx : p x
    · simp [hx] at h; exact ih h
    · simp [hx] at h
      rw [← h]
      simpa using hx

lemma pyRstripSlash_no_trailing (s : String) :
    (pyRstripSlash s).data.getLast? ≠ some '/' := by
  unfold pyRstripSlash
  intro h
  have h2 : ((s.data.reverse.dropWhile (fun c => c = '/')).head?) = some '/' := by
    simpa [List.getLast?_reverse] using h
  have := head?_dropWhile h2
  simp at this

/-- C9: for every base URL and path, `get_full_url` returns a path that
starts with `"http"` unchanged; otherwise it returns the stored base URL —
which has every trailing `'/'` stripped at construction, so never ends in
`'/'` — followed by exactly one inserted `'/'` and then the path with its
leading `'/'`, if any, deduplicated (a leading `'/'` is added exactly when
the path lacks one). -/
theorem getFullUrl_spec (base path : String) :
    (pyStartsWith path "http" = true → getFullUrl (baseMonitorBaseUrl base) path = path) ∧
    (pyStartsWith path "http" = false →
      (getFullUrl (baseMonitorBaseUrl base) path).data =
        (baseMonitorBaseUrl base).data ++ '/' ::
          (if path.data.head? = some '/' then path.data.tail else path.data) ∧
      (baseMonitorBaseUrl base).data.getLast? ≠ some '/') := by
  constructor
  · intro h
    unfold getFullUrl
    simp [h]
  · intro h
    refine ⟨?_, ?_⟩
    · unfold getFullUrl
      rw [if_neg (by simp [h])]
      by_cases hs : pyStartsWith path "/" = true
      · rw [if_pos hs]
        have hpre : ("/" : String).data.isPrefixOf path.data = true := hs
        rcases path with ⟨pd⟩
        cases pd with
        | nil => simp [List.isPrefixOf] at hpre
        | cons c cs =>
          simp [List.isPrefixOf] at hpre
          subst hpre
          simp [String.data_append]
      · rw [if_neg hs]
        rcases path with ⟨pd⟩
        cases pd with
        | nil =>
          simp [String.data_append]
        | cons c cs =>
          have hc : ¬ c = '/' := by
            intro hc; subst hc
            exact hs (by simp [pyStartsWith, List.isPrefixOf])
          simp [String.data_append, hc]
    · exact pyRstripSlash_no_trailing base

/-- Witness for C9 at base `"https://ex.com/"`, path `"about"`. -/
theorem getFullUrl_spec_witness :
    (getFullUrl (baseMonitorBaseUrl "https://ex.com/") "about").data =
      (baseMonitorBaseUrl "https://ex.com/").data ++ '/' ::
        (if ("about" : String).data.head? = some '/' then ("about" : String).data.tail
         else ("about" : String).data) ∧
    (baseMonitorBaseUrl "https://ex.com/").data.getLast? ≠ some '/' :=
  (getFullUrl_spec "https://ex.com/" "about").2 (by decide)

/-! ## C6: checker failures are isolated by the orchestrator -/

lemma runAllChecks_noCancel_cons (c : CheckerRun) (cs : List CheckerRun) :
    runAllChecks noCancel (c :: cs) =
      match c.run with
      | .ok results => results ++ runAllChecks noCancel cs
      | .error e => monitorFailedResult c.name e :: runAllChecks noCancel cs := by
  show (if noCancel 0 then [] else _) = _
  rfl

/-- C6: in an uncancelled orchestrator run, a checker whose `run()` raises
contributes exactly one error finding (attributed to that checker, with the
`Monitor failed:` message and high severity), and the checkers before and
after it contribute exactly what they would contribute anyway: the failure
never aborts the sequence. -/
theorem checker_failure_isolated (pre post : List CheckerRun) (name msg : String) :
    runAllChecks noCancel (pre ++ ⟨name, .error msg⟩ :: post) =
      runAllChecks noCancel pre ++
        monitorFailedResult name msg :: runAllChecks noCancel post := by
  induction pre with
  | nil =>
    rw [List.nil_append, runAllChecks_noCancel_cons]
    rfl
  | cons c rest ih =>
    rw [List.cons_append, runAllChecks_noCancel_cons, runAllChecks_noCancel_cons]
    cases c.run with
    | ok results => simp [ih]
    | error e => simp [ih]

/-! ## C7: orchestrator statistics -/

lemma foldl_tallyStep (rs : List MonitorResult) (acc : IssueCounts) :
    rs.foldl tallyStep acc =
      ⟨acc.critical +
         (rs.filter (fun r => r.status != "success" && r.severity == "critical")).length,
       acc.high +
         (rs.filter (fun r => r.status != "success" && r.severity == "high")).length,
       acc.medium +
         (rs.filter (fun r => r.status != "success" && r.severity == "medium")).length,
       acc.low +
         (rs.filter (fun r => r.status != "success" && r.severity == "low")).length⟩ := by
  induction rs generalizing acc with
  | nil => simp
  | cons r rest ih =>
    rw [List.foldl_cons, ih]
    by_cases hs : r.status = "success"
    · simp [tallyStep, hs, List.filter_cons]
    · by_cases h1 : r.severity = "critical"
      · simp [tallyStep, hs, h1, List.filter_cons, IssueCounts.mk.injEq]
        omega
      · by_cases h2 : r.severity = "high"
        · simp [tallyStep, hs, h1, h2, List.filter_cons, IssueCounts.mk.injEq]
          omega
        · by_cases h3 : r.severity = "medium"
          · simp [tallyStep, hs, h1, h2, h3, List.filter_cons, IssueCounts.mk.injEq]
            omega
          · by_cases h4 : r.severity = "low"
            · simp [tallyStep, hs, h1, h2, h3, h4, List.filter_cons, IssueCounts.mk.injEq]
              omega
            · simp [tallyStep, hs, h1, h2, h3, h4, List.filter_cons]

lemma statsIssueCounts_eq (rs : List MonitorResult) :
    statsIssueCounts rs =
      ⟨(rs.filter (fun r => r.status != "success" && r.severity == "critical")).length,
       (rs.filter (fun r => r.status != "success" && r.severity == "high")).length,
       (rs.filter (fun r => r.status != "success" && r.severity == "medium")).length,
       (rs.filter (fun r => r.status != "success" && r.severity == "low")).length⟩ := by
  rw [statsIssueCounts, foldl_tallyStep]
  simp

lemma statsResponseTimes_eq (rs : List MonitorResult) :
    statsResponseTimes rs =
      rs.filterMap (fun r => r.responseTime.bind (fun v => if v ≠ 0 then some v else none)) := by
  have key : ∀ (l : List MonitorResult) (acc : List ℚ),
      l.foldl (fun acc r =>
        match r.responseTime with
        | some v => if v ≠ 0 then acc ++ [v] else acc
        | none => acc) acc =
      acc ++ l.filterMap (fun r => r.responseTime.bind (fun v => if v ≠ 0 then some v else none)) := by
    intro l
    induction l with
    | nil => simp
    | cons r rest ih =>
      intro acc
      rw [List.foldl_cons, List.filterMap_cons]
      cases hrt : r.responseTime with
      | none =>
        simp only [hrt]
        rw [ih]
        simp
      | some v =>
        by_cases hv : v = 0
        · subst hv
          simp only [hrt]
          rw [if_neg (by simp), ih]
          simp
        · simp only [hrt]
          rw [if_pos hv, ih]
          simp [hv]
  have h := key rs []
  rw [List.nil_append] at h
  exact h

lemma calculateStats_fields (rs : List MonitorResult) :
    (calculateStats rs).totalChecks = rs.length ∧
    (calculateStats rs).criticalIssues =
      (rs.filter (fun r => r.status != "success" && r.severity == "critical")).length ∧
    (calculateStats rs).highIssues =
      (rs.filter (fun r => r.status != "success" && r.severity == "high")).length ∧
    (calculateStats rs).mediumIssues =
      (rs.filter (fun r => r.status != "success" && r.severity == "medium")).length ∧
    (calculateStats rs).lowIssues =
      (rs.filter (fun r => r.status != "success" && r.severity == "low")).length ∧
    (calculateStats rs).totalIssues =
      (calculateStats rs).criticalIssues + (calculateStats rs).highIssues +
        (calculateStats rs).mediumIssues + (calculateStats rs).lowIssues ∧
    (calculateStats rs).avgResponseTime =
      pyRound2
        (if rs.filterMap (fun r => r.responseTime.bind (fun v => if v ≠ 0 then some v else none)) = []
         then 0
         else (rs.filterMap (fun r => r.responseTime.bind (fun v => if v ≠ 0 then some v else none))).sum /
           ((rs.filterMap (fun r => r.responseTime.bind (fun v => if v ≠ 0 then some v else none))).length : ℚ)) := by
  have hts := statsResponseTimes_eq rs
  have hic := statsIssueCounts_eq rs
  refine ⟨rfl, ?_, ?_, ?_, ?_, rfl, ?_⟩
  · show (statsIssueCounts rs).critical = _
    rw [hic]
  · show (statsIssueCounts rs).high = _
    rw [hic]
  · show (statsIssueCounts rs).medium = _
    rw [hic]
  · show (statsIssueCounts rs).low = _
    rw [hic]
  · show pyRound2 (if statsResponseTimes rs ≠ [] then _ else 0) = _
    rw [hts]
    by_cases h : rs.filterMap (fun r => r.responseTime.bind (fun v => if v ≠ 0 then some v else none)) = []
    · rw [if_neg (by simpa using h), if_pos h]
    · rw [if_pos h, if_neg h]

/-- C7 (amended): the statistics count severities over exactly the findings
whose status is not `'success'`, but the mean latency is taken over the
findings whose latency value is present *and nonzero* — the Python
truthiness test `if rt:` silently drops zero-valued latencies. -/
theorem calculateStats_spec (rs : List MonitorResult) :
    (calculateStats rs).criticalIssues =
      (rs.filter (fun r => r.status != "success" && r.severity == "critical")).length ∧
    (calculateStats rs).highIssues =
      (rs.filter (fun r => r.status != "success" && r.severity == "high")).length ∧
    (calculateStats rs).mediumIssues =
      (rs.filter (fun r => r.status != "success" && r.severity == "medium")).length ∧
    (calculateStats rs).lowIssues =
      (rs.filter (fun r => r.status != "success" && r.severity == "low")).length ∧
    (calculateStats rs).avgResponseTime =
      pyRound2
        (if rs.filterMap (fun r => r.responseTime.bind (fun v => if v ≠ 0 then some v else none)) = []
         then 0
         else (rs.filterMap (fun r => r.responseTime.bind (fun v => if v ≠ 0 then some v else none))).sum /
           ((rs.filterMap (fun r => r.responseTime.bind (fun v => if v ≠ 0 then some v else none))).length : ℚ)) := by
  have h := calculateStats_fields rs
  exact ⟨h.2.1, h.2.2.1, h.2.2.2.1, h.2.2.2.2.1, h.2.2.2.2.2.2⟩

/-- C7 counterexample: two findings carry latencies 0 ms and 100 ms; the
claim's mean over all latency-carrying findings is 50, but the code
computes 100 because the zero latency fails the `if rt:` truthiness test. -/
theorem calculateStats_drops_zero_latency :
    (calculateStats
      [mkResult "uptime" "success" "site is up" "info" none (some 0) [],
       mkResult "links" "success" "all links valid" "info" none (some 100) []]).avgResponseTime
      = 100 ∧
    ((0 : ℚ) + 100) / 2 ≠
      (calculateStats
        [mkResult "uptime" "success" "site is up" "info" none (some 0) [],
         mkResult "links" "success" "all links valid" "info" none (some 100) []]).avgResponseTime := by
  have h : (calculateStats
      [mkResult "uptime" "success" "site is up" "info" none (some 0) [],
       mkResult "links" "success" "all links valid" "info" none (some 100) []]).avgResponseTime
      = 100 := by
    show pyRound2 (if statsResponseTimes _ ≠ [] then _ else 0) = 100
    norm_num [statsResponseTimes, mkResult, pyRound2, pyRoundInt, Rat.floor]
  refine ⟨h, by rw [h]; norm_num⟩

/-! ## C10: info findings are counted as issues -/

lemma mem_insertIssue {a x : Issue} {l : List Issue} :
    a ∈ insertIssue x l ↔ a = x ∨ a ∈ l := by
  induction l with
  | nil => simp [insertIssue]
  | cons y ys ih =>
    unfold insertIssue
    by_cases h : severityRank x.severity < severityRank y.severity
    · simp [h]
    · simp [h, ih]
      tauto

lemma mem_sortIssues {a : Issue} {l : List Issue} :
    a ∈ sortIssues l ↔ a ∈ l := by
  induction l with
  | nil => simp [sortIssues]
  | cons x xs ih => simp [sortIssues, mem_insertIssue, ih]

/-- C10: the video checker's `'No videos found'` finding (status `'info'`,
severity `'low'`) is treated as an issue by the orchestrator: appending it
to any result list increments the low-severity count and the total issue
count, and its projection appears in the report's issues list. -/
theorem infoFinding_treated_as_issue (rs : List MonitorResult) (page url : String) :
    (calculateStats (rs ++ [noVideosResult page url])).lowIssues =
      (calculateStats rs).lowIssues + 1 ∧
    (calculateStats (rs ++ [noVideosResult page url])).totalIssues =
      (calculateStats rs).totalIssues + 1 ∧
    issueOf (noVideosResult page url) ∈ generateReportIssues (rs ++ [noVideosResult page url]) := by
  have hA := calculateStats_fields (rs ++ [noVideosResult page url])
  have hB := calculateStats_fields rs
  refine ⟨?_, ?_, ?_⟩
  · rw [hA.2.2.2.2.1, hB.2.2.2.2.1, List.filter_append]
    simp [noVideosResult, mkResult]
  · rw [hA.2.2.2.2.2.1, hB.2.2.2.2.2.1,
      hA.2.1, hB.2.1, hA.2.2.1, hB.2.2.1, hA.2.2.2.1, hB.2.2.2.1,
      hA.2.2.2.2.1, hB.2.2.2.2.1]
    simp only [List.filter_append, List.length_append]
    simp [noVideosResult, mkResult]
    omega
  · unfold generateReportIssues
    rw [mem_sortIssues, List.mem_map]
    refine ⟨noVideosResult page url, ?_, rfl⟩
    rw [List.mem_filter]
    simp [noVideosResult, mkResult]

/-! ## C5: summary preview caps -/

/-- C5 counterexample: a run over a page with 21 broken links (plus one
broken crawl fetch of the base URL) produces a site-wide broken-links
summary whose `broken_links` detail list holds all 22 rows — the link
checker's summary is not capped to a 20-item preview. -/
theorem linkSummary_not_capped :
    (match dGet ((linkRun c5cfg c5net noCancel 50).results.getLastD
        (mkResult "" "" "")).details "broken_links" with
     | some (.arr l) => l.length
     | _ => 0) = 22 ∧ ¬(22 ≤ 20) := by
  constructor
  · rfl
  · decide

/-- C5 (amended): the image and video summaries aggregate each per-run
bucket into one site-wide finding whose detail list is capped to the first
20 entries while the counted totals are always the full counts; the link
checker's site-wide broken finding reports full totals but its detail list
is *not* capped — it carries one row per broken link. -/
theorem summaries_cap_spec (cfg : Config) (ist : ImageState) (vst : VideoState)
    (lst : LinkState) :
    (ist.brokenImages ≠ [] →
      ∃ r ∈ imageSummary cfg ist,
        r.status = "error" ∧
        dGet r.details "broken_images" = some (dObjList (ist.brokenImages.take 20)) ∧
        (ist.brokenImages.take 20).length ≤ 20 ∧
        dGet r.details "total_checked" = some (.n ist.checkedImages.length) ∧
        r.message = "Found " ++ toString ist.brokenImages.length ++ " broken images across site") ∧
    (ist.slowImages ≠ [] →
      ∃ r ∈ imageSummary cfg ist,
        dGet r.details "slow_images" = some (dObjList (ist.slowImages.take 20)) ∧
        (ist.slowImages.take 20).length ≤ 20) ∧
    (ist.missingAltImages ≠ [] →
      ∃ r ∈ imageSummary cfg ist,
        dGet r.details "missing_alt_images" = some (dObjList (ist.missingAltImages.take 20)) ∧
        (ist.missingAltImages.take 20).length ≤ 20) ∧
    (vst.brokenVideos ≠ [] →
      ∃ r ∈ videoSummary vst,
        dGet r.details "broken_videos" = some (dObjList (vst.brokenVideos.take 20)) ∧
        (vst.brokenVideos.take 20).length ≤ 20 ∧
        dGet r.details "total_checked" = some (.n vst.checkedVideos.length) ∧
        r.message = "Found " ++ toString vst.brokenVideos.length ++ " broken videos across site") ∧
    (lst.brokenLinks ≠ [] →
      ∃ r ∈ linkSummarize lst,
        dGet r.details "broken_links" = some (dObjList (lst.brokenLinks.map brokenLinkDetail)) ∧
        (lst.brokenLinks.map brokenLinkDetail).length = lst.brokenLinks.length ∧
        dGet r.details "total_checked" = some (.n lst.checkedUrls.length)) := by
  refine ⟨?_, ?_, ?_, ?_, ?_⟩
  · intro h
    have hmem : mkResult "images" "error"
        ("Found " ++ toString ist.brokenImages.length ++ " broken images across site")
        "high" none none
        [("summary", .s ("Checked " ++ toString ist.checkedImages.length ++
          " images, found " ++ toString ist.brokenImages.length ++ " broken")),
         ("broken_images", dObjList (ist.brokenImages.take 20)),
         ("total_checked", .n ist.checkedImages.length)] ∈ imageSummary cfg ist := by
      unfold imageSummary
      rw [if_pos h]
      exact List.mem_append_left _ (List.mem_append_left _
        (List.mem_append_left _ (List.mem_singleton.mpr rfl)))
    exact ⟨_, hmem, rfl, rfl, List.length_take_le _ _, rfl, rfl⟩
  · intro h
    have hmem : mkResult "images" "warning"
        (toString ist.slowImages.length ++ " slow-loading images across site (>" ++
          toString (cfg.slowThresholdMs / 1000) ++ "s)")
        "medium" none none
        [("slow_images", dObjList (ist.slowImages.take 20)),
         ("threshold_ms", .n cfg.slowThresholdMs)] ∈ imageSummary cfg ist := by
      unfold imageSummary
      rw [if_pos h]
      exact List.mem_append_left _ (List.mem_append_left _
        (List.mem_append_right _ (List.mem_singleton.mpr rfl)))
    exact ⟨_, hmem, rfl, List.length_take_le _ _⟩
  · intro h
    have hmem : mkResult "images" "warning"
        (toString ist.missingAltImages.length ++
          " images missing alt text (SEO/accessibility issue)")
        "low" none none
        [("missing_alt_images", dObjList (ist.missingAltImages.take 20)),
         ("seo_impact", .s "Alt text is important for SEO and screen readers")] ∈
          imageSummary cfg ist := by
      unfold imageSummary
      rw [if_pos h]
      exact List.mem_append_left _
        (List.mem_append_right _ (List.mem_singleton.mpr rfl))
    exact ⟨_, hmem, rfl, List.length_take_le _ _⟩
  · intro h
    have hmem : mkResult "videos" "error"
        ("Found " ++ toString vst.brokenVideos.length ++ " broken videos across site")
        "high" none none
        [("summary", .s ("Checked " ++ toString vst.checkedVideos.length ++
           " videos, found " ++ toString vst.brokenVideos.length ++ " broken")),
         ("broken_videos", dObjList (vst.brokenVideos.take 20)),
         ("total_checked", .n vst.checkedVideos.length)] ∈ videoSummary vst := by
      unfold videoSummary
      rw [if_pos h]
      exact List.mem_singleton.mpr rfl
    exact ⟨_, hmem, rfl, List.length_take_le _ _, rfl, rfl⟩
  · intro h
    have hmem : mkResult "links" "error"
        ("Found " ++ toString lst.brokenLinks.length ++ " broken anchor links across site")
        "high" none none
        [("summary", .s ("Clicked " ++ toString lst.checkedUrls.length ++
           " anchor links, found " ++ toString lst.brokenLinks.length ++ " broken")),
         ("broken_links", dObjList (lst.brokenLinks.map brokenLinkDetail)),
         ("total_checked", .n lst.checkedUrls.length)] ∈ linkSummarize lst := by
      unfold linkSummarize
      rw [if_pos h]
      exact List.mem_singleton.mpr rfl
    exact ⟨_, hmem, rfl, List.length_map _ _, rfl⟩

/-- Witness for C5 (amended) on one-item states. -/
theorem summaries_cap_spec_witness :
    wIst.brokenImages ≠ [] ∧
    (∃ r ∈ imageSummary c5cfg wIst,
      r.status = "error" ∧
      dGet r.details "broken_images" = some (dObjList (wIst.brokenImages.take 20)) ∧
      (wIst.brokenImages.take 20).length ≤ 20 ∧
      dGet r.details "total_checked" = some (.n wIst.checkedImages.length) ∧
      r.message = "Found " ++ toString wIst.brokenImages.length ++
        " broken images across site") ∧
    (∃ r ∈ imageSummary c5cfg wIst,
      dGet r.details "slow_images" = some (dObjList (wIst.slowImages.take 20)) ∧
      (wIst.slowImages.take 20).length ≤ 20) ∧
    (∃ r ∈ imageSummary c5cfg wIst,
      dGet r.details "missing_alt_images" = some (dObjList (wIst.missingAltImages.take 20)) ∧
      (wIst.missingAltImages.take 20).length ≤ 20) ∧
    (∃ r ∈ videoSummary wVst,
      dGet r.details "broken_videos" = some (dObjList (wVst.brokenVideos.take 20)) ∧
      (wVst.brokenVideos.take 20).length ≤ 20 ∧
      dGet r.details "total_checked" = some (.n wVst.checkedVideos.length) ∧
      r.message = "Found " ++ toString wVst.brokenVideos.length ++
        " broken videos across site") ∧
    (∃ r ∈ linkSummarize wLst,
      dGet r.details "broken_links" = some (dObjList (wLst.brokenLinks.map brokenLinkDetail)) ∧
      (wLst.brokenLinks.map brokenLinkDetail).length = wLst.brokenLinks.length ∧
      dGet r.details "total_checked" = some (.n wLst.checkedUrls.length)) :=
  ⟨by decide,
   (summaries_cap_spec c5cfg wIst wVst wLst).1 (by decide),
   (summaries_cap_spec c5cfg wIst wVst wLst).2.1 (by decide),
   (summaries_cap_spec c5cfg wIst wVst wLst).2.2.1 (by decide),
   (summaries_cap_spec c5cfg wIst wVst wLst).2.2.2.1 (by decide),
   (summaries_cap_spec c5cfg wIst wVst wLst).2.2.2.2 (by decide)⟩

/-! ## C3: the five-image scenario -/

/-- C3 counterexample: in the claimed scenario (five images, all 200 OK,
one at 4000 ms against the 3000 ms threshold) the image checker emits two
warnings (page-level slow and site-level slow) and *no* success finding at
all — the per-page 5/5 success summary the claim promises is suppressed
because a slow image exists. -/
theorem imageChecker_slow_suppresses_success :
    ((imageRun c5cfg c3net noCancel).results.map (fun r => r.status)) =
      ["warning", "warning"] ∧
    ((imageRun c5cfg c3net noCancel).results.filter
      (fun r => r.status == "success")).length = 0 := by
  refine ⟨?_, ?_⟩
  · rfl
  · rfl

/-- C3 (amended): the image checker emits the per-page success summary
exactly when the page has neither broken nor slow images; in the five-image
scenario it therefore emits the page slow warning (listing the one slow
image) and the site slow warning, and no success finding. -/
theorem imageSuccess_policy_spec :
    (∀ (cfg : Config) (page url : String) (totalImages capped : Nat) (acc : ImgPageAcc),
      ((imagePageFindings cfg page url totalImages capped acc).filter
        (fun r => r.status == "success")).length =
        (if acc.pageBroken = [] ∧ acc.pageSlow = [] then 1 else 0)) ∧
    ((imageRun c5cfg c3net noCancel).results.map (fun r => r.status)) =
      ["warning", "warning"] ∧
    (match dGet (((imageRun c5cfg c3net noCancel).results.headD
        (mkResult "" "" "")).details) "slow_images" with
     | some (.arr [DVal.obj d]) => dGet d "image_url"
     | _ => none) = some (.s "https://site.example/i4.png") := by
  refine ⟨?_, ?_, ?_⟩
  · intro cfg page url totalImages capped acc
    unfold imagePageFindings
    by_cases hb : acc.pageBroken = []
    · by_cases hs : acc.pageSlow = []
      · by_cases hm : acc.pageMissingAlt = [] <;>
          simp [hb, hs, hm, mkResult, List.filter_append]
      · by_cases hm : acc.pageMissingAlt = [] <;>
          simp [hb, hs, hm, mkResult, List.filter_append]
    · by_cases hs : acc.pageSlow = []
      · by_cases hm : acc.pageMissingAlt = [] <;>
          simp [hb, hs, hm, mkResult, List.filter_append]
      · by_cases hm : acc.pageMissingAlt = [] <;>
          simp [hb, hs, hm, mkResult, List.filter_append]
  · rfl
  · rfl

/-! ## C2: page-fetch failure handling -/

/-- C2 counterexample: a configured page whose fetch returns a non-200
status is skipped by all three checkers with *no* finding at all — the
per-page scan of a single 404 page produces an empty result list in the
link, image and video checkers alike. -/
theorem pageFetch_non200_no_finding :
    (linkPages c5cfg c2net noCancel ["/"] LinkState.init).results = [] ∧
    (imagePages c5cfg c2net noCancel ["/"] ImageState.init).results = [] ∧
    (videoPages c5cfg c2net ["/"] VideoState.init).results = [] := by
  refine ⟨?_, ?_, ?_⟩
  · rfl
  · rfl
  · rfl

/-- C2 (amended): a page fetch that raises an exception yields exactly one
error finding for that page (with the source's message and severity) and
the loop continues with the remaining pages and unchanged checker state; a
page fetch that returns a non-200 status is skipped *silently* — the loop
continues with no finding for that page. -/
theorem pageFetch_failure_policy (cfg : Config) (net : Net) (p : String)
    (rest : List String) (m : String) (lst : LinkState) (ist : ImageState)
    (vst : VideoState) :
    (net.get (cfg.pageUrl p) = .exn m →
      linkPages cfg net noCancel (p :: rest) lst =
        linkPages cfg net noCancel rest
          { lst with
            tick := lst.tick + 1
            pageLog := lst.pageLog ++ [cfg.pageUrl p]
            results := lst.results ++
              [mkResult "links" "error"
                ("Link check failed for " ++ p ++ ": " ++ pyTake m 50)
                "medium" (some (cfg.pageUrl p))] } ∧
      imagePages cfg net noCancel (p :: rest) ist =
        imagePages cfg net noCancel rest
          { ist with
            tick := ist.tick + 1
            pageLog := ist.pageLog ++ [cfg.pageUrl p]
            results := ist.results ++
              [mkResult "images" "error"
                ("Failed to check images on " ++ p ++ ": " ++ pyTake m 100)
                "high" (some (cfg.pageUrl p))] } ∧
      videoPages cfg net (p :: rest) vst =
        videoPages cfg net rest
          { vst with
            pageLog := vst.pageLog ++ [cfg.pageUrl p]
            results := vst.results ++
              [mkResult "videos" "error"
                ("Failed to check videos on " ++ p ++ ": " ++ pyTake m 100)
                "medium" (some (cfg.pageUrl p))] }) ∧
    (∀ (status : Nat) (t : ℚ) (ct : String) (content : PageContent) (rd : Nat),
      net.get (cfg.pageUrl p) = .resp status t ct content rd → status ≠ 200 →
      linkPages cfg net noCancel (p :: rest) lst =
        linkPages cfg net noCancel rest
          { lst with
            tick := lst.tick + 1
            pageLog := lst.pageLog ++ [cfg.pageUrl p] } ∧
      imagePages cfg net noCancel (p :: rest) ist =
        imagePages cfg net noCancel rest
          { ist with
            tick := ist.tick + 1
            pageLog := ist.pageLog ++ [cfg.pageUrl p] } ∧
      videoPages cfg net (p :: rest) vst =
        videoPages cfg net rest
          { vst with pageLog := vst.pageLog ++ [cfg.pageUrl p] }) := by
  constructor
  · intro h
    refine ⟨?_, ?_, ?_⟩
    · show linkPages cfg net noCancel rest (linkPage cfg net noCancel p
        { lst with tick := lst.tick + 1 }) = _
      unfold linkPage
      simp only [h]
    · show imagePages cfg net noCancel rest (imagePage cfg net noCancel p
        { ist with tick := ist.tick + 1 }) = _
      unfold imagePage
      simp only [h]
    · show videoPages cfg net rest (videoPage cfg net p vst) = _
      unfold videoPage
      simp only [h]
  · intro status t ct content rd h hne
    refine ⟨?_, ?_, ?_⟩
    · show linkPages cfg net noCancel rest (linkPage cfg net noCancel p
        { lst with tick := lst.tick + 1 }) = _
      unfold linkPage
      simp only [h, if_pos hne]
    · show imagePages cfg net noCancel rest (imagePage cfg net noCancel p
        { ist with tick := ist.tick + 1 }) = _
      unfold imagePage
      simp only [h, if_pos hne]
    · show videoPages cfg net rest (videoPage cfg net p vst) = _
      unfold videoPage
      simp only [h, if_pos hne]

/-- Witness for C2 (amended): the raising network and the 404 network on a
single configured page. -/
theorem pageFetch_failure_policy_witness :
    (linkPages c5cfg c2xnet noCancel ("/" :: []) LinkState.init =
        linkPages c5cfg c2xnet noCancel []
          { LinkState.init with
            tick := LinkState.init.tick + 1
            pageLog := LinkState.init.pageLog ++ [c5cfg.pageUrl "/"]
            results := LinkState.init.results ++
              [mkResult "links" "error"
                ("Link check failed for " ++ "/" ++ ": " ++ pyTake "boom" 50)
                "medium" (some (c5cfg.pageUrl "/"))] } ∧
      imagePages c5cfg c2xnet noCancel ("/" :: []) ImageState.init =
        imagePages c5cfg c2xnet noCancel []
          { ImageState.init with
            tick := ImageState.init.tick + 1
            pageLog := ImageState.init.pageLog ++ [c5cfg.pageUrl "/"]
            results := ImageState.init.results ++
              [mkResult "images" "error"
                ("Failed to check images on " ++ "/" ++ ": " ++ pyTake "boom" 100)
                "high" (some (c5cfg.pageUrl "/"))] } ∧
      videoPages c5cfg c2xnet ("/" :: []) VideoState.init =
        videoPages c5cfg c2xnet []
          { VideoState.init with
            pageLog := VideoState.init.pageLog ++ [c5cfg.pageUrl "/"]
            results := VideoState.init.results ++
              [mkResult "videos" "error"
                ("Failed to check videos on " ++ "/" ++ ": " ++ pyTake "boom" 100)
                "medium" (some (c5cfg.pageUrl "/"))] }) ∧
    (linkPages c5cfg c2net noCancel ("/" :: []) LinkState.init =
        linkPages c5cfg c2net noCancel []
          { LinkState.init with
            tick := LinkState.init.tick + 1
            pageLog := LinkState.init.pageLog ++ [c5cfg.pageUrl "/"] } ∧
      imagePages c5cfg c2net noCancel ("/" :: []) ImageState.init =
        imagePages c5cfg c2net noCancel []
          { ImageState.init with
            tick := ImageState.init.tick + 1
            pageLog := ImageState.init.pageLog ++ [c5cfg.pageUrl "/"] } ∧
      videoPages c5cfg c2net ("/" :: []) VideoState.init =
        videoPages c5cfg c2net []
          { VideoState.init with
            pageLog := VideoState.init.pageLog ++ [c5cfg.pageUrl "/"] }) :=
  ⟨(pageFetch_failure_policy c5cfg c2xnet "/" [] "boom" LinkState.init
      ImageState.init VideoState.init).1 rfl,
   (pageFetch_failure_policy c5cfg c2net "/" [] "x" LinkState.init
      ImageState.init VideoState.init).2 404 0 "text/html"
      (PageContent.ofBody Body.empty) 0 rfl (by decide)⟩

/-! ## C8: zero extracted resources still yields a finding -/

/-- C8: a page that is fetched with status 200 but yields no resources
after content-scope filtering and extraction still produces exactly one
finding: the links and images checkers emit their zero-count page success
finding, and the video checker emits its `No videos found` info finding. -/
theorem zero_resources_still_reported
    (cfg : Config) (net : Net) (p : String) (t : ℚ) (ct : String)
    (content : PageContent) (rd : Nat)
    (lst : LinkState) (ist : ImageState) (vst : VideoState)
    (h : net.get (cfg.pageUrl p) = .resp 200 t ct content rd)
    (hL : pageAnchorLinks (cfg.pageUrl p)
      (linkContentScope cfg.mainContentOnly cfg.ignoreHeader cfg.ignoreFooter content).anchors
      [] = [])
    (hI : extractImages
      (imageContentScope cfg.mainContentOnly cfg.ignoreHeader cfg.ignoreFooter content)
      (cfg.pageUrl p) = [])
    (hV : extractVideos content.full (cfg.pageUrl p) = []) :
    (linkPage cfg net noCancel p lst).results = lst.results ++
      [mkResult "links" "success"
        ("All " ++ toString (0:Nat) ++ " anchor links valid on " ++ p ++
          " (avg: " ++ toString (0:ℚ) ++ "ms)")
        "info" (some (cfg.pageUrl p)) (some 0)
        [("total_anchor_links", .n 0), ("checked", .n 0),
         ("avg_response_time_ms", .n 0), ("slowest_links", dObjList []),
         ("all_checked_links", dObjList [])]] ∧
    (imagePage cfg net noCancel p ist).results = ist.results ++
      [mkResult "images" "success"
        ("All " ++ toString (0:Nat) ++ " images valid on " ++ p ++
          " (avg: " ++ toString (0:ℚ) ++ "ms)")
        "info" (some (cfg.pageUrl p)) (some 0)
        [("total_images", .n 0), ("checked", .n 0), ("avg_load_time_ms", .n 0)]] ∧
    (videoPage cfg net p vst).results = vst.results ++
      [noVideosResult p (cfg.pageUrl p)] := by
  refine ⟨?_, ?_, ?_⟩
  · unfold linkPage
    simp only [h, hL]
    norm_num [linkInner, linkPageFindings, sortByRtDesc, dObjList, mkResult]
  · unfold imagePage
    simp only [h, hI]
    norm_num [imageInner, imagePageFindings, dObjList, mkResult]
  · unfold videoPage
    simp only [h, hV]
    norm_num [videoInner, noVideosResult, mkResult]

/-- Witness for C8 on an empty 200 page. -/
theorem zero_resources_still_reported_witness :
    (linkPage c5cfg c8net noCancel "/" LinkState.init).results = LinkState.init.results ++
      [mkResult "links" "success"
        ("All " ++ toString (0:Nat) ++ " anchor links valid on " ++ "/" ++
          " (avg: " ++ toString (0:ℚ) ++ "ms)")
        "info" (some (c5cfg.pageUrl "/")) (some 0)
        [("total_anchor_links", .n 0), ("checked", .n 0),
         ("avg_response_time_ms", .n 0), ("slowest_links", dObjList []),
         ("all_checked_links", dObjList [])]] ∧
    (imagePage c5cfg c8net noCancel "/" ImageState.init).results = ImageState.init.results ++
      [mkResult "images" "success"
        ("All " ++ toString (0:Nat) ++ " images valid on " ++ "/" ++
          " (avg: " ++ toString (0:ℚ) ++ "ms)")
        "info" (some (c5cfg.pageUrl "/")) (some 0)
        [("total_images", .n 0), ("checked", .n 0), ("avg_load_time_ms", .n 0)]] ∧
    (videoPage c5cfg c8net "/" VideoState.init).results = VideoState.init.results ++
      [noVideosResult "/" (c5cfg.pageUrl "/")] :=
  zero_resources_still_reported c5cfg c8net "/" 0 "text/html"
    (PageContent.ofBody Body.empty) 0 LinkState.init ImageState.init VideoState.init
    rfl rfl rfl rfl

/-! ## C4: cancellation policy -/

/-- C4 counterexample: with the cancellation signal set from the very
start, the video checker still fetches the configured page and still
issues the oEmbed verification request for the embedded video (and emits
error findings) — it samples the cancellation event nowhere. -/
theorem videoChecker_ignores_cancellation :
    (videoRun c5cfg c4net (fun _ => true)).verifyLog =
      ["https://www.youtube.com/oembed?url=https://www.youtube.com/watch?v=abc12345678&format=json"] ∧
    (videoRun c5cfg c4net (fun _ => true)).pageLog = ["https://site.example/"] ∧
    (videoRun c5cfg c4net (fun _ => true)).results.map (fun r => r.status) =
      ["error", "error"] := by
  refine ⟨?_, ?_, ?_⟩
  · rfl
  · rfl
  · rfl

/-- C4 (amended): the link and image checkers sample cancellation before
each page and before each resource verification — a signal observed at the
first sample stops them before any page fetch, resource verification or
finding; the video checker never samples the signal, so its run is
identical whatever the signal; and a signal firing mid-page stops further
verification while the findings for the resources already verified on the
current page are still emitted (two-page scenario: only the first page is
fetched, only its first image verified, and the page and site success
findings are still produced). -/
theorem cancellation_policy_spec :
    (∀ (cfg : Config) (net : Net) (c : Nat → Bool), c 0 = true →
      ((linkPages cfg net c cfg.criticalPages LinkState.init).resourceLog = [] ∧
       (linkPages cfg net c cfg.criticalPages LinkState.init).pageLog = [] ∧
       (linkPages cfg net c cfg.criticalPages LinkState.init).results = []) ∧
      ((imagePages cfg net c cfg.criticalPages ImageState.init).verifyLog = [] ∧
       (imagePages cfg net c cfg.criticalPages ImageState.init).pageLog = [] ∧
       (imagePages cfg net c cfg.criticalPages ImageState.init).results = [])) ∧
    (∀ (cfg : Config) (net : Net) (c : Nat → Bool),
      videoRun cfg net c = videoRun cfg net noCancel) ∧
    ((imageRun c4cfg2 c3net c42).verifyLog = ["https://site.example/i0.png"] ∧
     (imageRun c4cfg2 c3net c42).pageLog = ["https://site.example/"] ∧
     (imageRun c4cfg2 c3net c42).results.map (fun r => r.status) = ["success", "success"]) := by
  refine ⟨?_, ?_, ?_, ?_, ?_⟩
  · intro cfg net c hc
    cases hp : cfg.criticalPages with
    | nil =>
      refine ⟨⟨rfl, rfl, rfl⟩, ⟨rfl, rfl, rfl⟩⟩
    | cons p rest =>
      constructor
      · unfold linkPages
        simp [LinkState.init, hc]
      · unfold imagePages
        simp [ImageState.init, hc]
  · intro cfg net c
    rfl
  · rfl
  · rfl
  · rfl

/-- Witness for C4 (amended) with an always-set signal. -/
theorem cancellation_policy_spec_witness :
    ((fun _ => true : Nat → Bool) 0 = true) ∧
    (((linkPages c5cfg c2net (fun _ => true) c5cfg.criticalPages LinkState.init).resourceLog = [] ∧
      (linkPages c5cfg c2net (fun _ => true) c5cfg.criticalPages LinkState.init).pageLog = [] ∧
      (linkPages c5cfg c2net (fun _ => true) c5cfg.criticalPages LinkState.init).results = []) ∧
     ((imagePages c5cfg c2net (fun _ => true) c5cfg.criticalPages ImageState.init).verifyLog = [] ∧
      (imagePages c5cfg c2net (fun _ => true) c5cfg.criticalPages ImageState.init).pageLog = [] ∧
      (imagePages c5cfg c2net (fun _ => true) c5cfg.criticalPages ImageState.init).results = [])) :=
  ⟨rfl, cancellation_policy_spec.1 c5cfg c2net (fun _ => true) rfl⟩

/-! ## C1: verified-at-most-once (dedup discipline) -/

lemma count_append_one {l : List String} {x u : String} :
    (l ++ [x]).count u = l.count u + (if x = u then 1 else 0) := by
  by_cases h : x = u
  · simp [List.count_append, h]
  · have h2 : ¬(u = x) := fun hh => h hh.symm
    simp [List.count_append, List.count_cons, List.count_nil, h, h2]

lemma OnceInto.append_other {u : String} {log tracked : List String} {x : String}
    (h : OnceInto u log tracked) (hx : x ≠ u) :
    OnceInto u (log ++ [x]) tracked := by
  unfold OnceInto at h ⊢
  rw [count_append_one, if_neg hx]
  simpa using h

lemma OnceInto.grow {u : String} {log tracked tracked2 : List String}
    (h : OnceInto u log tracked) (hsub : ∀ a, a ∈ tracked → a ∈ tracked2) :
    OnceInto u log tracked2 := by
  exact ⟨h.1, fun hc => hsub u (h.2 hc)⟩

lemma OnceInto.hit {u : String} {log tracked tracked2 : List String}
    (h : OnceInto u log tracked) (hnm : u ∉ tracked) (hmem : u ∈ tracked2) :
    OnceInto u (log ++ [u]) tracked2 := by
  have hzero : log.count u = 0 := by
    by_contra hc
    exact hnm (h.2 (Nat.one_le_iff_ne_zero.mpr hc))
  unfold OnceInto
  rw [count_append_one, if_pos rfl, hzero]
  exact ⟨le_refl 1, fun _ => hmem⟩
lemma linkInner_once (cfg : Config) (net : Net) (c : Nat → Bool) (page url u : String)
    (hresp : (net.get u).isResp = true) :
    ∀ (links : List (String × String)) (acc : LinkPageAcc) (st : LinkState),
      OnceInto u st.resourceLog st.checkedUrls →
      OnceInto u (linkInner cfg net c page url links acc st).2.resourceLog
        (linkInner cfg net c page url links acc st).2.checkedUrls := by
  intro links
  induction links with
  | nil =>
    intro acc st h
    simpa [linkInner] using h
  | cons hd rest ih =>
    intro acc st h
    obtain ⟨lu, tx⟩ := hd
    by_cases hc : c st.tick = true
    · simp only [linkInner, hc, if_true]
      exact h
    · by_cases hmem : lu ∈ st.checkedUrls
      · simp only [linkInner, hc, if_false, if_pos hmem]
        exact ih acc _ h
      · rcases hcase : net.get lu with ⟨status, t, ct, content, rd⟩ | m | m | m | m
        · have h2 : OnceInto u (st.resourceLog ++ [lu]) (st.checkedUrls ++ [lu]) := by
            by_cases hu : lu = u
            · subst hu
              exact h.hit hmem (by simp)
            · exact (h.append_other hu).grow (fun a ha => List.mem_append_left _ ha)
          simp only [linkInner, hc, if_false, if_neg hmem, hcase]
          by_cases hs : status ≥ 400
          · simp only [if_pos hs]
            refine ih _ _ ?_
            exact h2
          · simp only [if_neg hs]
            by_cases hslow : t > 3000
            · simp only [if_pos hslow]
              refine ih _ _ ?_
              exact h2
            · simp only [if_neg hslow]
              refine ih _ _ ?_
              exact h2
        · have hu : lu ≠ u := by
            intro he
            rw [← he, hcase] at hresp
            simp [FetchOutcome.isResp] at hresp
          simp only [linkInner, hc, if_false, if_neg hmem, hcase]
          refine ih _ _ ?_
          exact h.append_other hu
        · have hu : lu ≠ u := by
            intro he
            rw [← he, hcase] at hresp
            simp [FetchOutcome.isResp] at hresp
          simp only [linkInner, hc, if_false, if_neg hmem, hcase]
          refine ih _ _ ?_
          exact h.append_other hu
        · have hu : lu ≠ u := by
            intro he
            rw [← he, hcase] at hresp
            simp [FetchOutcome.isResp] at hresp
          simp only [linkInner, hc, if_false, if_neg hmem, hcase]
          refine ih _ _ ?_
          exact h.append_other hu
        · have hu : lu ≠ u := by
            intro he
            rw [← he, hcase] at hresp
            simp [FetchOutcome.isResp] at hresp
          simp only [linkInner, hc, if_false, if_neg hmem, hcase]
          by_cases hint : ¬isInternal cfg.stored lu = true
          · simp only [if_pos hint]
            refine ih _ _ ?_
            exact h.append_other hu
          · simp only [if_neg hint]
            refine ih _ _ ?_
            exact h.append_other hu
lemma checkExternalLink_logs (net : Net) (url source : String) (st : LinkState) :
    (checkExternalLink net url source st).resourceLog = st.resourceLog ∧
    (checkExternalLink net url source st).crawlGetLog = st.crawlGetLog := by
  unfold checkExternalLink
  repeat' split
  all_goals simp

lemma crawlDispatch_logs (cfg : Config) (net : Net) (pageUrl : String)
    (crawled : List String) (depth : Nat) :
    ∀ (links : List String) (out : List (String × Nat) × LinkState),
      (crawlDispatch cfg net pageUrl crawled depth links out).2.resourceLog =
        out.2.resourceLog ∧
      (crawlDispatch cfg net pageUrl crawled depth links out).2.crawlGetLog =
        out.2.crawlGetLog := by
  intro links
  induction links with
  | nil => intro out; exact ⟨rfl, rfl⟩
  | cons l rest ih =>
    intro out
    obtain ⟨queue, st⟩ := out
    simp only [crawlDispatch]
    repeat' split
    all_goals simp [ih, checkExternalLink_logs]

lemma linkInner_otherLogs (cfg : Config) (net : Net) (c : Nat → Bool) (page url : String) :
    ∀ (links : List (String × String)) (acc : LinkPageAcc) (st : LinkState),
      (linkInner cfg net c page url links acc st).2.crawlGetLog = st.crawlGetLog ∧
      (linkInner cfg net c page url links acc st).2.headLog = st.headLog := by
  intro links
  induction links with
  | nil => intro acc st; exact ⟨rfl, rfl⟩
  | cons hd rest ih =>
    intro acc st
    obtain ⟨lu, tx⟩ := hd
    simp only [linkInner]
    repeat' split
    all_goals simp [ih]
lemma linkPage_otherLogs (cfg : Config) (net : Net) (c : Nat → Bool) (p : String)
    (st : LinkState) :
    (linkPage cfg net c p st).crawlGetLog = st.crawlGetLog ∧
    (linkPage cfg net c p st).headLog = st.headLog := by
  unfold linkPage
  rcases hcase : net.get (cfg.pageUrl p) with ⟨status, t, ct, content, rd⟩ | m | m | m | m <;>
    simp only [] <;> repeat' split
  all_goals simp [linkInner_otherLogs]

lemma linkPages_otherLogs (cfg : Config) (net : Net) (c : Nat → Bool) :
    ∀ (pages : List String) (st : LinkState),
      (linkPages cfg net c pages st).crawlGetLog = st.crawlGetLog ∧
      (linkPages cfg net c pages st).headLog = st.headLog := by
  intro pages
  induction pages with
  | nil => intro st; exact ⟨rfl, rfl⟩
  | cons p rest ih =>
    intro st
    simp only [linkPages]
    repeat' split
    all_goals simp [ih, linkPage_otherLogs]

lemma crawlLoop_resourceLog (cfg : Config) (net : Net) :
    ∀ (fuel : Nat) (queue : List (String × Nat)) (crawled : List String) (st : LinkState),
      (crawlLoop cfg net fuel queue crawled st).resourceLog = st.resourceLog := by
  intro fuel
  induction fuel with
  | zero => intro queue crawled st; rfl
  | succ n ih =>
    intro queue crawled st
    cases queue with
    | nil => rfl
    | cons qh rest =>
      obtain ⟨url, depth⟩ := qh
      simp only [crawlLoop]
      repeat' split
      all_goals simp [ih, crawlDispatch_logs]
lemma linkPage_once (cfg : Config) (net : Net) (c : Nat → Bool) (u p : String)
    (st : LinkState) (hresp : (net.get u).isResp = true)
    (h : OnceInto u st.resourceLog st.checkedUrls) :
    OnceInto u (linkPage cfg net c p st).resourceLog
      (linkPage cfg net c p st).checkedUrls := by
  rcases hcase : net.get (cfg.pageUrl p) with ⟨status, t, ct, content, rd⟩ | m | m | m | m
  · unfold linkPage
    simp only [hcase]
    by_cases hs : status ≠ 200
    · simp only [if_pos hs]
      exact h
    · simp only [if_neg hs]
      exact linkInner_once cfg net c p (cfg.pageUrl p) u hresp _ _ _ h
  · unfold linkPage
    simp only [hcase]
    exact h
  · unfold linkPage
    simp only [hcase]
    exact h
  · unfold linkPage
    simp only [hcase]
    exact h
  · unfold linkPage
    simp only [hcase]
    exact h

lemma linkPages_once (cfg : Config) (net : Net) (c : Nat → Bool) (u : String)
    (hresp : (net.get u).isResp = true) :
    ∀ (pages : List String) (st : LinkState),
      OnceInto u st.resourceLog st.checkedUrls →
      OnceInto u (linkPages cfg net c pages st).resourceLog
        (linkPages cfg net c pages st).checkedUrls := by
  intro pages
  induction pages with
  | nil => intro st h; exact h
  | cons p rest ih =>
    intro st h
    simp only [linkPages]
    by_cases hc : c st.tick = true
    · simp only [hc, if_true]
      exact h
    · simp only [hc, if_false]
      exact ih _ (linkPage_once cfg net c u p _ hresp h)

lemma crawlLoop_once (cfg : Config) (net : Net) (u : String) :
    ∀ (fuel : Nat) (queue : List (String × Nat)) (crawled : List String) (st : LinkState),
      OnceInto u st.crawlGetLog crawled →
      (crawlLoop cfg net fuel queue crawled st).crawlGetLog.count u ≤ 1 := by
  intro fuel
  induction fuel with
  | zero => intro queue crawled st h; exact h.1
  | succ n ih =>
    intro queue crawled st h
    cases queue with
    | nil => exact h.1
    | cons qh rest =>
      obtain ⟨url, depth⟩ := qh
      simp only [crawlLoop]
      by_cases hstop : ¬(st.checkedUrls.length < cfg.maxLinks)
      · simp only [if_pos hstop]
        exact h.1
      · simp only [if_neg hstop]
        by_cases hskip : url ∈ crawled ∨ depth > cfg.maxDepth
        · simp only [if_pos hskip]
          exact ih rest crawled st h
        · simp only [if_neg hskip]
          by_cases hig : cfg.shouldIgnore url = true
          · simp only [hig, if_true]
            exact ih rest crawled st h
          · simp only [hig, if_false]
            have hnotin : url ∉ crawled := fun hin => hskip (Or.inl hin)
            have h2 : OnceInto u (st.crawlGetLog ++ [url]) (crawled ++ [url]) := by
              by_cases hu : url = u
              · subst hu
                exact h.hit hnotin (by simp)
              · exact (h.append_other hu).grow (fun a ha => List.mem_append_left _ ha)
            rcases hcase : net.get url with ⟨status, t, ct, content, rd⟩ | m | m | m | m <;>
              simp only []
            · by_cases hs : status ≥ 400
              · by_cases hr : rd > 2 <;> simp only [if_pos hs, hr, if_true, if_false] <;>
                  refine ih _ _ _ ?_ <;> exact h2
              · by_cases hhtml : pyContains ct "text/html" = true
                · by_cases hr : rd > 2 <;>
                    simp only [if_neg hs, hhtml, hr, if_true, if_false] <;>
                    refine ih _ _ _ ?_ <;>
                    · constructor
                      · rw [(crawlDispatch_logs cfg net url (crawled ++ [url]) depth _ _).2]
                        exact h2.1
                      · rw [(crawlDispatch_logs cfg net url (crawled ++ [url]) depth _ _).2]
                        exact h2.2
                · by_cases hr : rd > 2 <;>
                    simp only [if_neg hs, hhtml, hr, if_true, if_false] <;>
                    refine ih _ _ _ ?_ <;> exact h2
            · refine ih _ _ _ ?_
              exact h2
            · refine ih _ _ _ ?_
              exact h2
            · refine ih _ _ _ ?_
              exact h2
            · refine ih _ _ _ ?_
              exact h2

/-- C1 counterexample: the same URL is verified more than once per run.
First run: an external URL that times out is fetched again from the second
page that references it (the checked set is only updated when a response
arrives, never on an exception), so the per-page resource log holds it
twice.  Second run: `/b`, already verified during the per-page scan, is
fetched once more by the site crawl, whose own `crawled` set starts empty
and is never reconciled with the checked set. -/
theorem url_reverified_counterexample :
    (linkRun c1acfg c1anet noCancel 50).resourceLog =
      ["https://ext.example/x", "https://ext.example/x"] ∧
    (linkRun c1bcfg c1bnet noCancel 50).resourceLog = ["https://site.example/b"] ∧
    (linkRun c1bcfg c1bnet noCancel 50).crawlGetLog =
      ["https://site.example", "https://site.example/b"] := by
  refine ⟨?_, ?_, ?_⟩
  · rfl
  · rfl
  · rfl

/-- C1 (amended): per phase, the dedup discipline holds in a weaker form
than claimed.  A URL whose verification `GET` receives an HTTP response
(any status) is marked checked and is verified at most once across the
whole per-page scan phase; a URL whose `GET` raises is not marked and may
be re-verified from later pages.  The crawl phase fetches each URL at most
once *within the crawl* (its local `crawled` set is updated before the
fetch), but it does not consult the per-page checked set, so a URL
verified in the per-page phase may be fetched once more by the crawl. -/
theorem dedup_policy_spec (cfg : Config) (net : Net) (c : Nat → Bool)
    (fuel : Nat) (u : String) :
    ((net.get u).isResp = true →
      (linkRun cfg net c fuel).resourceLog.count u ≤ 1) ∧
    (linkRun cfg net c fuel).crawlGetLog.count u ≤ 1 := by
  constructor
  · intro hresp
    have hres : (linkRun cfg net c fuel).resourceLog =
        (linkPages cfg net c cfg.criticalPages LinkState.init).resourceLog := by
      show (crawlLoop cfg net fuel [(cfg.stored, 0)] []
        (linkPages cfg net c cfg.criticalPages LinkState.init)).resourceLog = _
      rw [crawlLoop_resourceLog]
    rw [hres]
    have h0 : OnceInto u LinkState.init.resourceLog LinkState.init.checkedUrls := by
      constructor
      · simp [LinkState.init]
      · intro hc
        simp [LinkState.init] at hc
    exact (linkPages_once cfg net c u hresp cfg.criticalPages LinkState.init h0).1
  · show (crawlLoop cfg net fuel [(cfg.stored, 0)] []
      (linkPages cfg net c cfg.criticalPages LinkState.init)).crawlGetLog.count u ≤ 1
    refine crawlLoop_once cfg net u fuel _ _ _ ?_
    constructor
    · rw [(linkPages_otherLogs cfg net c cfg.criticalPages LinkState.init).1]
      simp [LinkState.init]
    · intro hc
      rw [(linkPages_otherLogs cfg net c cfg.criticalPages LinkState.init).1] at hc
      simp [LinkState.init] at hc

/-- Witness for C1 (amended) on the all-responding 404 fixture network. -/
theorem dedup_policy_spec_witness :
    ((c5net.get "https://site.example/b0").isResp = true) ∧
    (linkRun c5cfg c5net noCancel 50).resourceLog.count "https://site.example/b0" ≤ 1 ∧
    (linkRun c5cfg c5net noCancel 50).crawlGetLog.count "https://site.example/b0" ≤ 1 :=
  ⟨rfl,
   (dedup_policy_spec c5cfg c5net noCancel 50 "https://site.example/b0").1 rfl,
   (dedup_policy_spec c5cfg c5net noCancel 50 "https://site.example/b0").2⟩

end WebMon
